import Mathlib

/-!
Verification development for the email-security analysis backend.

The JavaScript sources are embedded shallowly: DNS lookups and the external
`mailauth` probes become explicit inputs, JavaScript numbers on the scoring
paths become rationals, objects with optional fields become structures with
`Option` fields, and `Promise.allSettled` outcomes become a `Settled` sum.
-/

namespace EmailSec

/-- JavaScript `Math.round`: round half toward positive infinity. -/
def jsRound (q : ℚ) : ℤ := ⌊q + 1/2⌋

/-- JavaScript `Math.round(x * 10) / 10`: round to one decimal place. -/
def round1 (q : ℚ) : ℚ := (jsRound (q * 10) : ℚ) / 10

/-- Lowercasing as used by `String.prototype.toLowerCase` on ASCII data. -/
def toLowerStr (s : String) : String := String.mk (s.data.map Char.toLower)

/-- `pat.isPrefixOf s` on character lists, i.e. `String.prototype.startsWith`. -/
def strStarts (s pat : String) : Bool := pat.data.isPrefixOf s.data

/-- `String.prototype.includes`: `pat` occurs as a contiguous substring of `s`. -/
def strContains (s pat : String) : Bool :=
  s.data.tails.any (fun t => pat.data.isPrefixOf t)

/-- One step of splitting on runs of whitespace (`String.prototype.split(/\s+/)`).
`cur` is the current token (reversed); `skipping` is true while consuming a
whitespace run. -/
def jsSplitWsGo : List Char → List Char → Bool → List String
  | [], cur, _ => [String.mk cur.reverse]
  | c :: cs, cur, skipping =>
    if c.isWhitespace then
      if skipping then jsSplitWsGo cs [] true
      else String.mk cur.reverse :: jsSplitWsGo cs [] true
    else jsSplitWsGo cs (c :: cur) false

/-- `s.split(/\s+/)` in JavaScript: maximal whitespace runs are separators,
with an empty leading/trailing piece when the string starts/ends with
whitespace. -/
def jsSplitWs (s : String) : List String := jsSplitWsGo s.data [] false

/-- Splitting a character list on a single separator character, JavaScript
`String.prototype.split(sep)` semantics. -/
def splitOnChar (sep : Char) : List Char → List (List Char)
  | [] => [[]]
  | c :: cs =>
    if c = sep then [] :: splitOnChar sep cs
    else
      match splitOnChar sep cs with
      | t :: ts => (c :: t) :: ts
      | [] => [[c]]

/-- `s.split(sep)` for a one-character separator, as a list of strings. -/
def jsSplitChar (sep : Char) (s : String) : List String :=
  (splitOnChar sep s.data).map String.mk

/-- `Array.prototype.join(sep)`. -/
def joinSep (sep : String) : List String → String
  | [] => ""
  | [s] => s
  | s :: rest => s ++ sep ++ joinSep sep rest

/-- `entry.join('')`: concatenation of the chunks of one TXT record. -/
def concatAll (l : List String) : String := joinSep "" l

/-- JavaScript truthiness of a possibly-undefined string. -/
def jsTruthyStr : Option String → Bool
  | some s => s ≠ ""
  | none => false

/-- JavaScript `a || b` on possibly-undefined strings. -/
def jsOrStr (a b : Option String) : Option String :=
  if jsTruthyStr a then a else b

/-- The `score` objects built by the analyzers:
`{ value, outOf, level, details? }`. -/
structure Score where
  value : ℚ
  outOf : ℚ
  level : String
  details : Option (List String) := none
deriving DecidableEq, Repr

/-- One parsed SPF mechanism (`src/services/spfService.js`, loop body of
`_analyzeSpfRecord`). -/
structure Mechanism where
  original : String
  type : String
  requiresLookup : Bool
deriving DecidableEq, Repr

/-- One MX record as returned by `resolver.resolveMx`. -/
structure MxRecord where
  priority : Nat
  exchange : String
deriving DecidableEq, Repr

/-- One entry of `ipTestResults` in `analyzeSPF`. -/
structure IpTestResult where
  ip : String
  result : String
  explanation : Option String := none
deriving DecidableEq, Repr

/-- The `parsed` object of a DMARC report, of which the aggregator reads
only `parsed?.p`. -/
structure DmarcParsed where
  p : Option String := none
deriving DecidableEq, Repr

/-- A protocol report object.  JavaScript objects are open records; the
fields below are the union of the fields the four analyzers and the
aggregator read or write, with `none` standing for an absent field. -/
structure ProtocolReport where
  success : Bool := false
  domain : Option String := none
  selector : Option String := none
  error : Option String := none
  rawRecord : Option String := none
  checkedRecord : Option String := none
  records : Option (List MxRecord) := none
  warnings : Option (List String) := none
  recommendations : Option (List String) := none
  score : Option Score := none
  lookups : Option Nat := none
  policy : Option String := none
  mechanisms : Option (List Mechanism) := none
  ipTestResults : Option (List IpTestResult) := none
  parsed : Option DmarcParsed := none
deriving DecidableEq, Repr

/-- Outcome of one task under `Promise.allSettled`. -/
inductive Settled (α : Type) where
  | fulfilled (value : α)
  | rejected (message : String)
deriving DecidableEq, Repr

/-- `r.status === 'fulfilled' ? r.value : { success: false, error: r.reason.message }`
in `analyzeEmailSecurity`. -/
def settleReport : Settled ProtocolReport → ProtocolReport
  | .fulfilled v => v
  | .rejected m => { success := false, error := some m }

/-! ### SPF analyzer (`src/services/spfService.js`) -/

/-- Result of `resolver.resolveTxt`: either the record set or a DNS error
carrying its `code` and `message`. -/
inductive TxtFetch where
  | ok (records : List (List String))
  | err (code message : String)

/-- Result object of one `mailauth` `spf(...)` call. -/
structure SpfStatus where
  status : String
  comment : Option String := none
  explanation : Option String := none

/-- The accumulator object of `_analyzeSpfRecord`. -/
structure SpfAnalysis where
  lookups : Nat := 0
  warnings : List String := []
  recommendations : List String := []
  policy : String := ""
  mechanisms : List Mechanism := []
deriving DecidableEq, Repr

/-- `mechLower.split(":")[0].split("/")[0].split("=")[0]`: the characters of
the lowercased mechanism before the first `:`, `/` or `=`. -/
def mechTypeOf (mechanism : String) : String :=
  String.mk ((toLowerStr mechanism).data.takeWhile
    (fun c => ¬(c = ':' ∨ c = '/' ∨ c = '=')))

def spfNoAllW : String :=
  "Record does not contain a terminating \"all\" mechanism."
def spfNoAllR : String :=
  "Add \"-all\" (fail), \"~all\" (softfail), or \"?all\" (neutral) to specify a default policy."
def spfPlusAllW : String :=
  "The \"+all\" mechanism is highly discouraged as it allows any server to send email."
def spfPlusAllR : String :=
  "Replace \"+all\" with \"-all\" for strict policy or \"~all\" for gradual deployment."
def spfQAllW : String :=
  "Neutral policy \"?all\" provides no protection against spoofing."
def spfQAllR : String :=
  "Consider using \"~all\" (softfail) or \"-all\" (fail) for better security."
def spfTildeAllR : String :=
  "Good: Using \"~all\" allows gradual SPF deployment. Consider \"-all\" for stricter security once confident."
def spfDashAllR : String :=
  "Excellent: Using \"-all\" provides the strongest SPF protection."
def spfPtrW : String :=
  "The \"ptr\" mechanism is deprecated and should not be used (RFC 7208)."
def spfPtrR : String :=
  "Remove the \"ptr\" mechanism. Use \"a\", \"mx\", or \"ip4/ip6\" instead."
def spfBareMxR : String :=
  "Using bare \"mx\" mechanism. Consider specifying MX records explicitly for better performance."
def spfBareAR : String :=
  "Using bare \"a\" mechanism. Consider specifying A records explicitly for better performance."
def spfRedirectR (redirectDomain : String) : String :=
  "Redirect to " ++ (redirectDomain ++ " detected. Ensure the target domain has a valid SPF record.")
def spfFatalW (lookups : Nat) : String :=
  "Fatal: Exceeded 10 DNS lookup limit. Found " ++ (Nat.repr lookups ++ " lookups (RFC 7208).")
def spfReduceR : String :=
  "Reduce DNS lookups by: 1) Flattening SPF records, 2) Using IP ranges instead of includes, 3) Consolidating mechanisms."
def spfApproachW (lookups : Nat) : String :=
  "Approaching DNS lookup limit: " ++ (Nat.repr lookups ++ "/10 lookups used.")
def spfApproachR : String :=
  "Consider optimizing your SPF record to reduce DNS lookups before hitting the limit."
def spfMonitorR (lookups : Nat) : String :=
  "Currently using " ++ (Nat.repr lookups ++ "/10 DNS lookups. Monitor this as you add more mechanisms.")
def spfLenW : String :=
  "SPF record exceeds 255 characters. This may cause DNS issues."
def spfLenR : String :=
  "Shorten your SPF record by using shorter domain names or consolidating mechanisms."
def spfSelfIncW : String :=
  "Potential SPF include loop detected (domain includes itself)."
def spfSelfIncR : String :=
  "Remove self-referential includes to prevent infinite loops."

/-- Policy-strength analysis of `_analyzeSpfRecord` (warnings, then
recommendations, from the `policyMechanism` case split). -/
def spfPolicyMsgs (policyMechanism : Option String) : List String × List String :=
  match policyMechanism with
  | none => ([spfNoAllW], [spfNoAllR])
  | some pm =>
    let policyLower := toLowerStr pm
    if policyLower = "+all" then ([spfPlusAllW], [spfPlusAllR])
    else if policyLower = "?all" then ([spfQAllW], [spfQAllR])
    else if policyLower = "~all" then ([], [spfTildeAllR])
    else if policyLower = "-all" then ([], [spfDashAllR])
    else ([], [])

/-- The recommendation the `redirect` branch of the loop may emit:
`mechanism.split('=')[1]` must be present and truthy. -/
def spfRedirectSeg (mechanism : String) : List String :=
  match (jsSplitChar '=' mechanism).get? 1 with
  | some d => if d ≠ "" then [spfRedirectR d] else []
  | none => []

/-- Body of the `for (const mechanism of mechanisms)` loop of
`_analyzeSpfRecord`, as a state transformer; each field collects the
branch effects in source order. -/
def spfLoopStep (a : SpfAnalysis) (mechanism : String) : SpfAnalysis :=
  let t := mechTypeOf mechanism
  { lookups := a.lookups + (if ["include", "a", "mx", "exists"].contains t then 1 else 0) +
      (if t = "redirect" then 1 else 0),
    warnings := a.warnings ++ (if t = "ptr" then [spfPtrW] else []),
    recommendations := a.recommendations ++
      (if t = "redirect" then spfRedirectSeg mechanism else []) ++
      (if t = "ptr" then [spfPtrR] else []) ++
      (if t = "mx" ∧ strContains mechanism ":" = false then [spfBareMxR] else []) ++
      (if t = "a" ∧ strContains mechanism ":" = false then [spfBareAR] else []),
    policy := a.policy,
    mechanisms := a.mechanisms ++
      [{ original := mechanism, type := t,
         requiresLookup := ["include", "a", "mx", "exists", "redirect"].contains t }] }

/-- `record.split(/\s+/).slice(1)`: the mechanism tokens of an SPF record. -/
def spfMechs (record : String) : List String := (jsSplitWs record).drop 1

/-- `analysis.policy = policyMechanism || 'No policy specified'`. -/
def spfPolicyField (policyMechanism : Option String) : String :=
  match policyMechanism with
  | some pm => if pm = "" then "No policy specified" else pm
  | none => "No policy specified"

/-- `_analyzeSpfRecord` up to (and including) the mechanism loop: policy
detection and grading, then the per-mechanism analysis. -/
def spfPre (record : String) : SpfAnalysis :=
  let mechanisms := spfMechs record
  let policyMechanism := mechanisms.find? (fun m => strContains (toLowerStr m) "all")
  let msgs := spfPolicyMsgs policyMechanism
  let a0 : SpfAnalysis :=
    { lookups := 0, warnings := msgs.1, recommendations := msgs.2,
      policy := spfPolicyField policyMechanism, mechanisms := [] }
  mechanisms.foldl spfLoopStep a0

/-- `mechanisms.filter(m => m.toLowerCase().startsWith('include:')).map(m => m.split(':')[1])`. -/
def spfIncludes (record : String) : List String :=
  ((spfMechs record).filter (fun m => strStarts (toLowerStr m) "include:")).map
    (fun m => ((jsSplitChar ':' m).get? 1).getD "")

/-- `_analyzeSpfRecord(record, domain)`: the custom SPF record analysis.
After `spfPre`, the DNS-lookup budget rules run (the fatal rule prepends via
`unshift`, the others append), then the record-length check, then the
self-include check. -/
def analyzeSpfRecord (record domain : String) : SpfAnalysis :=
  let a := spfPre record
  let lenW := if record.length > 255 then [spfLenW] else []
  let lenR := if record.length > 255 then [spfLenR] else []
  let selfInc := (spfIncludes record).contains domain
  let incW := if selfInc then [spfSelfIncW] else []
  let incR := if selfInc then [spfSelfIncR] else []
  if 10 < a.lookups then
    { a with warnings := spfFatalW a.lookups :: (a.warnings ++ lenW ++ incW),
             recommendations := spfReduceR :: (a.recommendations ++ lenR ++ incR) }
  else if 8 < a.lookups then
    { a with warnings := a.warnings ++ [spfApproachW a.lookups] ++ lenW ++ incW,
             recommendations := a.recommendations ++ [spfApproachR] ++ lenR ++ incR }
  else if 5 < a.lookups then
    { a with warnings := a.warnings ++ lenW ++ incW,
             recommendations := a.recommendations ++ [spfMonitorR a.lookups] ++ lenR ++ incR }
  else
    { a with warnings := a.warnings ++ lenW ++ incW,
             recommendations := a.recommendations ++ lenR ++ incR }

/-- The fixed probe sources of `analyzeSPF`. -/
def testIPs : List String := ["8.8.8.8", "1.1.1.1", "208.67.222.222", "64.233.160.1"]

/-- The "No SPF record found." report of `analyzeSPF`. -/
def spfNotFoundReport (domain : String) : ProtocolReport :=
  { success := false, error := some "No SPF record found.", domain := some domain,
    recommendations := some
      ["Create a TXT record for your domain starting with \"v=spf1\".",
       "Example: \"v=spf1 include:_spf.google.com ~all\"",
       "Test your SPF record before deploying to production."] }

/-- The outer `catch` report of `analyzeSPF`. -/
def spfCatchReport (domain message : String) : ProtocolReport :=
  { success := false, error := some message, domain := some domain,
    recommendations := some
      ["Check your DNS configuration.",
       "Ensure your domain is properly configured.",
       "Try again in a few minutes if this is a temporary DNS issue."] }

/-- The "Fatal: Multiple SPF records found." report of `analyzeSPF`. -/
def spfMultipleReport (domain : String) (spfRecords : List String) : ProtocolReport :=
  { success := false, error := some "Fatal: Multiple SPF records found.",
    domain := some domain, rawRecord := some (joinSep " | " spfRecords),
    recommendations := some
      ["A domain MUST NOT have multiple SPF records as per RFC 7208.",
       "Merge all mechanisms into a single \"v=spf1\" record.",
       "Remove duplicate or conflicting SPF records immediately."],
    warnings := some
      ["Multiple SPF records will cause authentication failures.",
       "Email delivery may be severely impacted."] }

/-- `analyzeSPF(domain)`.  The TXT lookup and the per-IP `mailauth` probes
are explicit inputs; a thrown lookup whose code is not `ENODATA`/`ENOTFOUND`
reaches the outer catch. -/
def analyzeSPF (domain : String) (fetch : TxtFetch)
    (probes : String → Except String SpfStatus) : ProtocolReport :=
  match fetch with
  | .err code message =>
    if code = "ENODATA" ∨ code = "ENOTFOUND" then spfNotFoundReport domain
    else spfCatchReport domain message
  | .ok txtRecords =>
    let flatRecords := txtRecords.map concatAll
    let spfRecords := flatRecords.filter (fun txt => strStarts (toLowerStr txt) "v=spf1")
    if spfRecords.length = 0 then spfNotFoundReport domain
    else if spfRecords.length > 1 then spfMultipleReport domain spfRecords
    else
      let spfRecord := spfRecords.headD ""
      let spfResults := testIPs.map (fun testIP =>
        match probes testIP with
        | .ok r => { ip := testIP, result := r.status,
                     explanation := jsOrStr r.comment r.explanation : IpTestResult }
        | .error m => { ip := testIP, result := "error",
                        explanation := some ("Error testing with IP " ++ (testIP ++ (": " ++ m))) })
      let analysis := analyzeSpfRecord spfRecord domain
      { success := true, domain := some domain, rawRecord := some spfRecord,
        lookups := some analysis.lookups, policy := some analysis.policy,
        warnings := some analysis.warnings,
        recommendations := some analysis.recommendations,
        mechanisms := some analysis.mechanisms,
        ipTestResults := some spfResults }

/-! ### MX analyzer (`src/services/mxService.js`) -/

/-- `[...new Set(l)]`: deduplication keeping first occurrences, with a seen
accumulator. -/
def dedupFirstAux : List Nat → List Nat → List Nat
  | [], _ => []
  | x :: xs, seen =>
    if seen.contains x then dedupFirstAux xs seen
    else x :: dedupFirstAux xs (x :: seen)

/-- `[...new Set(l)]` in insertion order. -/
def dedupFirst (l : List Nat) : List Nat := dedupFirstAux l []

def mxPresentD : String := "MX records present (+1 point)"
def mxRedundD : String := "Multiple MX records for redundancy (+1 point)"
def mxBackupR : String := "Consider adding backup MX records for redundancy"
def mxUniqueD : String := "Proper priority configuration (+1 point)"
def mxSamePrioW : String := "Some MX records have the same priority"
def mxSamePrioR : String := "Use unique priority values for better load balancing"
def mxProvidersD (detected : List String) : String :=
  "Detected providers: " ++ joinSep ", " detected
def mxPrio0W : String := "Priority 0 detected - ensure this is intentional"
def mxHighPrioR : String :=
  "Consider using lower priority values (closer to 0) for better delivery"
def mxNullSoleW : String := "Null MX record detected - this domain does not accept email"
def mxNullSoleD : String := "Null MX record - domain explicitly rejects email"
def mxNullMixedW : String :=
  "Mixed null and regular MX records - this configuration may cause issues"

/-- The fixed provider-detection table of `analyzeMXRecords`; each entry is
the provider label and its substring test over the lowercased exchanges. -/
def mxDetectedProviders (exchanges : List String) : List String :=
  (if exchanges.any (fun ex => strContains ex "google.com" ∨ strContains ex "gmail.com")
    then ["google.com"] else []) ++
  (if exchanges.any (fun ex => strContains ex "outlook.com" ∨ strContains ex "hotmail.com" ∨
      strContains ex "live.com") then ["microsoft.com"] else []) ++
  (if exchanges.any (fun ex => strContains ex "cloudflare") then ["cloudflare.com"] else []) ++
  (if exchanges.any (fun ex => strContains ex "protonmail") then ["protonmail.com"] else []) ++
  (if exchanges.any (fun ex => strContains ex "zoho") then ["zoho.com"] else [])

/-- The analysis slice returned by `analyzeMXRecords` and
`analyzeDKIMRecord`: warnings, recommendations, and a score. -/
structure RecordAnalysis where
  warnings : List String
  recommendations : List String
  score : Score
deriving DecidableEq, Repr

/-- `analyzeMXRecords(records)`. -/
def analyzeMXRecords (records : List MxRecord) : RecordAnalysis :=
  if records.length = 0 then
    { warnings := ["No MX records found"], recommendations := [],
      score := { value := 0, outOf := 3, level := "Poor" } }
  else
    let priorities := records.map (·.priority)
    let uniqueOk := (dedupFirst priorities).length = records.length
    let exchanges := records.map (fun r => toLowerStr r.exchange)
    let detected := mxDetectedProviders exchanges
    let hasLowPriority := records.any (fun r => r.priority = 0)
    let hasHighPriority := records.any (fun r => r.priority > 50)
    let hasNullMx := records.any (fun r => r.exchange = "." ∨ r.exchange = "")
    let base : ℚ := 1 + (if records.length ≥ 2 then 1 else 0) + (if uniqueOk then 1 else 0)
    let details := [mxPresentD] ++ (if records.length ≥ 2 then [mxRedundD] else []) ++
      (if uniqueOk then [mxUniqueD] else []) ++
      (if detected.length > 0 then [mxProvidersD detected] else [])
    let warnings := (if uniqueOk then [] else [mxSamePrioW]) ++
      (if hasLowPriority then [mxPrio0W] else []) ++
      (if hasNullMx ∧ records.length = 1 then [mxNullSoleW]
       else if hasNullMx then [mxNullMixedW] else [])
    let recommendations := (if records.length ≥ 2 then [] else [mxBackupR]) ++
      (if uniqueOk then [] else [mxSamePrioR]) ++
      (if hasHighPriority then [mxHighPrioR] else [])
    let base' : ℚ := if hasNullMx ∧ records.length = 1 then 0 else base
    let details' := if hasNullMx ∧ records.length = 1 then [mxNullSoleD] else details
    let finalScore : ℚ := max (min base' 3) 0
    let securityLevel :=
      if finalScore ≥ 5/2 then "Excellent"
      else if finalScore ≥ 2 then "Good"
      else if finalScore ≥ 1 then "Fair" else "Poor"
    { warnings := warnings, recommendations := recommendations,
      score := { value := round1 finalScore, outOf := 3, level := securityLevel,
                 details := some details' } }

/-! ### DKIM record analyzer (`src/services/dkimService.js`) -/

/-- `result.status` of a `mailauth` DKIM verification item. -/
structure DkimAuthStatus where
  result : Option String := none

/-- One element of `dkimResult.results`. -/
structure DkimAuthItem where
  status : Option DkimAuthStatus := none
  info : Option String := none

/-- The object returned by `dkimVerify`. -/
structure DkimAuthResult where
  results : List DkimAuthItem := []

/-- A character of the base64 class `[A-Za-z0-9+/=]` of the public-key
regular expression. -/
def isB64 (c : Char) : Bool := c.isAlpha ∨ c.isDigit ∨ c = '+' ∨ c = '/' ∨ c = '='

/-- First match of `/p=([A-Za-z0-9+/=]+)/`: scan left to right for `p=`
followed by at least one base64 character; the capture is the maximal base64
run. -/
def keyAfterP : List Char → Option (List Char)
  | [] => none
  | c :: rest =>
    if c = 'p' then
      match rest with
      | '=' :: d :: rest2 =>
        if isB64 d then some (d :: rest2.takeWhile isB64) else keyAfterP rest
      | _ => keyAfterP rest
    else keyAfterP rest

def dkimInvalidW : String := "Invalid DKIM record format"
def dkimValidD : String := "Valid DKIM record found (+1 point)"
def dkimPubD : String := "Public key present (+2 points)"
def dkimNoKeyW : String := "No public key found in DKIM record"
def dkimRsaD : String := "RSA key type (+1 point)"
def dkimEdD : String := "Ed25519 key type - excellent security (+1.5 points)"
def dkimSha256D : String := "SHA-256 hash algorithm (+1 point)"
def dkimSha1D : String := "SHA-1 hash algorithm (+0.5 points)"
def dkimSha1R : String := "Consider upgrading to SHA-256 for better security"
def dkimEmailD : String := "Restricted to email service (+0.5 points)"
def dkimTestW : String := "Testing mode enabled (t=y). Remove this flag for production."
def dkimStrictW : String := "Strict mode enabled. This may cause issues with some email systems."
def dkimStrongKeyD : String := "Strong key length (+0.5 points)"
def dkimWeakKeyW : String := "Potentially weak key length detected"
def dkimWeakKeyR : String := "Consider using a stronger RSA key (2048+ bits)"
def dkimMailauthD (result : String) : String := "Mailauth DKIM check: " ++ result
def dkimPassD : String := "DKIM verification passed (+0.5 points)"
def dkimNeutralD : String := "DKIM verification neutral (no penalty)"
def dkimInfoD (info : String) : String := "DKIM info: " ++ info

/-- The `mailauth` block of `analyzeDKIMRecord`: the details it appends and
the bonus points it awards. -/
def dkimMailauthSeg (dkimResult : Option DkimAuthResult) : List String × ℚ :=
  match dkimResult with
  | some dr =>
    match dr.results with
    | r :: _ =>
      let statusSeg : List String × ℚ :=
        match r.status with
        | some st =>
          match st.result with
          | some res =>
            if res ≠ "" then
              (dkimMailauthD res ::
                (if res = "pass" then [dkimPassD]
                 else if res = "neutral" then [dkimNeutralD] else []),
               if res = "pass" then 1/2 else 0)
            else ([], 0)
          | none => ([], 0)
        | none => ([], 0)
      let infoSeg := match r.info with
        | some i => if i ≠ "" then [dkimInfoD i] else []
        | none => []
      (statusSeg.1 ++ infoSeg, statusSeg.2)
    | [] => ([], 0)
  | none => ([], 0)

/-- `analyzeDKIMRecord(record, dkimResult)`. -/
def analyzeDKIMRecord (record : String) (dkimResult : Option DkimAuthResult) :
    RecordAnalysis :=
  if ¬(strContains record "v=DKIM1" ∨ strContains record "k=rsa" ∨
        strContains record "p=") then
    { warnings := [dkimInvalidW], recommendations := [],
      score := { value := 0, outOf := 5, level := "Poor" } }
  else
    let pubOk := strContains record "p=" ∧ strContains record "p=;" = false
    let keyMatch := keyAfterP record.data
    let mailauth : List String × ℚ := dkimMailauthSeg dkimResult
    let base : ℚ := 1 + (if pubOk then 2 else 0) +
      (if strContains record "k=rsa" then 1
       else if strContains record "k=ed25519" then 3/2 else 0) +
      (if strContains record "h=sha256" then 1
       else if strContains record "h=sha1" then 1/2 else 0) +
      (if strContains record "s=email" then 1/2 else 0) +
      (match keyMatch with
       | some key => if key.length > 300 then 1/2 else 0
       | none => 0) +
      mailauth.2
    let details := [dkimValidD] ++ (if pubOk then [dkimPubD] else []) ++
      (if strContains record "k=rsa" then [dkimRsaD]
       else if strContains record "k=ed25519" then [dkimEdD] else []) ++
      (if strContains record "h=sha256" then [dkimSha256D]
       else if strContains record "h=sha1" then [dkimSha1D] else []) ++
      (if strContains record "s=email" then [dkimEmailD] else []) ++
      (match keyMatch with
       | some key => if key.length > 300 then [dkimStrongKeyD] else []
       | none => []) ++
      mailauth.1
    let warnings := (if pubOk then [] else [dkimNoKeyW]) ++
      (if strContains record "t=y" then [dkimTestW] else []) ++
      (if strContains record "t=s" then [dkimStrictW] else []) ++
      (match keyMatch with
       | some key => if key.length > 300 then []
                     else if key.length < 200 then [dkimWeakKeyW] else []
       | none => [])
    let recommendations :=
      (if strContains record "h=sha256" then []
       else if strContains record "h=sha1" then [dkimSha1R] else []) ++
      (match keyMatch with
       | some key => if key.length > 300 then []
                     else if key.length < 200 then [dkimWeakKeyR] else []
       | none => [])
    let finalScore : ℚ := max (min base 5) 0
    let securityLevel :=
      if finalScore ≥ 4 then "Excellent"
      else if finalScore ≥ 3 then "Good"
      else if finalScore ≥ 2 then "Fair" else "Poor"
    { warnings := warnings, recommendations := recommendations,
      score := { value := round1 finalScore, outOf := 5, level := securityLevel,
                 details := some details } }

/-! ### Aggregator (`src/services/emailSecurityService.js`) -/

/-- The `summary` object of the aggregate report. -/
structure Summary where
  totalChecks : Nat
  passedChecks : Nat
  warnings : List String
  recommendations : List String
  priorityRecommendations : List String
deriving DecidableEq, Repr

/-- The value returned by `analyzeEmailSecurity`. -/
structure AggregateReport where
  domain : String
  dmarc : ProtocolReport
  spf : ProtocolReport
  dkim : ProtocolReport
  mx : ProtocolReport
  overallScore : Score
  summary : Summary
deriving DecidableEq, Repr

/-- The contribution of one protocol report to `(totalScore, maxScore)`:
`if (result.success && result.score) { totalScore += ...; maxScore += ... }`. -/
def scoreContrib (r : ProtocolReport) : ℚ × ℚ :=
  match r.score with
  | some s => if r.success then (s.value, s.outOf) else (0, 0)
  | none => (0, 0)

def aggDmarcCriticalR : String :=
  "🔴 CRITICAL: Set up DMARC policy to prevent email spoofing"
def aggDmarcNoneR : String :=
  "🟡 IMPORTANT: Upgrade DMARC policy from \"none\" to \"quarantine\" or \"reject\""
def aggSpfCriticalR : String :=
  "🔴 CRITICAL: Configure SPF record to authorize mail servers"
def aggDkimImportantR : String :=
  "🟡 IMPORTANT: Enable DKIM signing for email authentication"
def aggMxCriticalR : String :=
  "🔴 CRITICAL: Configure MX records for email delivery"

/-- `analyzeEmailSecurity(domain, dkimSelector)` after the
`Promise.allSettled` join: the four analyzer outcomes are the inputs. -/
def analyzeEmailSecurity (domain : String)
    (dmarcS spfS dkimS mxS : Settled ProtocolReport) : AggregateReport :=
  let dmarcResult := settleReport dmarcS
  let spfResult := settleReport spfS
  let dkimResult := settleReport dkimS
  let mxResult := settleReport mxS
  let totalScore := (scoreContrib dmarcResult).1 + (scoreContrib spfResult).1 +
    (scoreContrib dkimResult).1 + (scoreContrib mxResult).1
  let maxScore := (scoreContrib dmarcResult).2 + (scoreContrib spfResult).2 +
    (scoreContrib dkimResult).2 + (scoreContrib mxResult).2
  let overallScore : ℚ := if maxScore > 0 then totalScore / maxScore * 10 else 0
  let securityLevel :=
    if overallScore ≥ 8 then "Excellent"
    else if overallScore ≥ 6 then "Good"
    else if overallScore ≥ 4 then "Fair" else "Poor"
  let allRecommendations := (dmarcResult.recommendations).getD [] ++
    (spfResult.recommendations).getD [] ++ (dkimResult.recommendations).getD [] ++
    (mxResult.recommendations).getD []
  let allWarnings := (dmarcResult.warnings).getD [] ++ (spfResult.warnings).getD [] ++
    (dkimResult.warnings).getD [] ++ (mxResult.warnings).getD []
  let priorityRecommendations :=
    (if ¬dmarcResult.success then [aggDmarcCriticalR]
     else if (dmarcResult.parsed.map (·.p)).join = some "none" then [aggDmarcNoneR]
     else []) ++
    (if ¬spfResult.success then [aggSpfCriticalR] else []) ++
    (if ¬dkimResult.success then [aggDkimImportantR] else []) ++
    (if ¬mxResult.success then [aggMxCriticalR] else [])
  { domain := domain, dmarc := dmarcResult, spf := spfResult, dkim := dkimResult,
    mx := mxResult,
    overallScore := { value := round1 overallScore, outOf := 10, level := securityLevel },
    summary := { totalChecks := 4,
                 passedChecks := ([dmarcResult, spfResult, dkimResult, mxResult].filter
                   (fun r => r.success)).length,
                 warnings := allWarnings, recommendations := allRecommendations,
                 priorityRecommendations := priorityRecommendations } }

/-! ### Rate limiter (`src/utils/rateLimit.js`) -/

/-- One entry of the `rateLimitStore` map. -/
structure RateEntry where
  count : Nat
  resetTime : Nat
deriving DecidableEq, Repr

/-- The value returned by `checkRateLimit`. -/
structure RateResult where
  allowed : Bool
  remaining : Option Nat := none
  error : Option String := none
  resetTime : Option Nat := none
deriving DecidableEq, Repr

/-- The `rateLimitStore` map, keyed by caller address. -/
def RateStore : Type := String → Option RateEntry

/-- `rateLimitStore.set(ip, e)`. -/
def storeSet (store : RateStore) (ip : String) (e : RateEntry) : RateStore :=
  fun k => if k = ip then some e else store k

/-- `checkRateLimit(req)` with the caller address and `Date.now()` explicit;
returns the result together with the updated store.  `limit = 10`,
`window = 60 * 1000`. -/
def checkRateLimit (store : RateStore) (ip : String) (now : Nat) :
    RateResult × RateStore :=
  match store ip with
  | none =>
    ({ allowed := true, remaining := some (10 - 1) },
     storeSet store ip { count := 1, resetTime := now + 60 * 1000 })
  | some userData =>
    if now > userData.resetTime then
      ({ allowed := true, remaining := some (10 - 1) },
       storeSet store ip { count := 1, resetTime := now + 60 * 1000 })
    else if userData.count ≥ 10 then
      ({ allowed := false, error := some "Too many requests. Please try again later.",
         resetTime := some userData.resetTime }, store)
    else
      ({ allowed := true, remaining := some (10 - (userData.count + 1)) },
       storeSet store ip { count := userData.count + 1, resetTime := userData.resetTime })

/-- A sequence of `checkRateLimit` calls from one address at the given
timestamps, threading the store. -/
def checkRateLimitSeq (store : RateStore) (ip : String) :
    List Nat → List RateResult × RateStore
  | [] => ([], store)
  | t :: ts =>
    let r := checkRateLimit store ip t
    let rest := checkRateLimitSeq r.2 ip ts
    (r.1 :: rest.1, rest.2)

/-! ### The level bands the specification describes -/

/-- Modelled from the spec: the uniform level bands it claims all producers
share — `level` is Excellent iff `value/outOf ≥ 80%`, Good iff `≥ 60%`,
Fair iff `≥ 40%`, else Poor. -/
def specLevelBand (value outOf : ℚ) : String :=
  if value / outOf ≥ 4/5 then "Excellent"
  else if value / outOf ≥ 3/5 then "Good"
  else if value / outOf ≥ 2/5 then "Fair" else "Poor"

/-- A rational that is a natural number of half-points, the granularity of
the additive scoring rules. -/
def IsHalfNat (q : ℚ) : Prop := ∃ n : ℕ, q = n / 2

/-! ### Helper lemmas -/

theorem strNe_of_get {p x q y : String} {i : Nat} (hp : i < p.data.length)
    (hq : i < q.data.length) (h : p.data[i]? ≠ q.data[i]?) : p ++ x ≠ q ++ y := by
  intro he
  apply h
  have hd : p.data ++ x.data = q.data ++ y.data := congrArg String.data he
  have h1 : (p.data ++ x.data)[i]? = p.data[i]? := List.getElem?_append_left hp
  have h2 : (q.data ++ y.data)[i]? = q.data[i]? := List.getElem?_append_left hq
  rw [← h1, ← h2, hd]

theorem strNe_of_getLit {p x q : String} {i : Nat} (hp : i < p.data.length)
    (h : p.data[i]? ≠ q.data[i]?) : p ++ x ≠ q := by
  intro he
  apply h
  have hd : p.data ++ x.data = q.data := congrArg String.data he
  have h1 : (p.data ++ x.data)[i]? = p.data[i]? := List.getElem?_append_left hp
  rw [← h1, hd]

theorem strNeLit_of_get {p x q : String} {i : Nat} (hp : i < p.data.length)
    (h : p.data[i]? ≠ q.data[i]?) : q ≠ p ++ x :=
  (strNe_of_getLit hp h).symm

theorem jsRound_intCast (z : ℤ) : jsRound (z : ℚ) = z := by
  unfold jsRound
  rw [add_comm, Int.floor_add_int]
  norm_num

theorem round1_zero : round1 0 = 0 := by
  unfold round1
  rw [zero_mul, show ((0:ℚ) = ((0:ℤ):ℚ)) from rfl, jsRound_intCast]
  norm_num

theorem round1_halfNat (n : ℕ) : round1 ((n : ℚ) / 2) = (n : ℚ) / 2 := by
  unfold round1
  have h : ((n : ℚ) / 2) * 10 = ((5 * n : ℤ) : ℚ) := by push_cast; ring
  rw [h, jsRound_intCast]
  push_cast
  ring

theorem round1_natCast (n : ℕ) : round1 (n : ℚ) = n := by
  have h := round1_halfNat (2 * n)
  have h2 : ((2 * n : ℕ) : ℚ) / 2 = (n : ℚ) := by push_cast; ring
  rw [h2] at h
  exact h

theorem round1_mono {a b : ℚ} (h : a ≤ b) : round1 a ≤ round1 b := by
  unfold round1
  have : jsRound (a * 10) ≤ jsRound (b * 10) := by
    unfold jsRound
    exact Int.floor_le_floor (by linarith)
  have hq : ((jsRound (a * 10) : ℤ) : ℚ) ≤ ((jsRound (b * 10) : ℤ) : ℚ) := by
    exact_mod_cast this
  linarith

theorem round1_nonneg {a : ℚ} (h : 0 ≤ a) : 0 ≤ round1 a := by
  have := round1_mono h
  rwa [round1_zero] at this

theorem scoreContrib_of_not_success {r : ProtocolReport} (h : r.success = false) :
    scoreContrib r = (0, 0) := by
  unfold scoreContrib
  cases r.score <;> simp [h]

theorem scoreContrib_of_score_none {r : ProtocolReport} (h : r.score = none) :
    scoreContrib r = (0, 0) := by
  unfold scoreContrib
  rw [h]

theorem IsHalfNat.add {a b : ℚ} (ha : IsHalfNat a) (hb : IsHalfNat b) :
    IsHalfNat (a + b) := by
  obtain ⟨n, rfl⟩ := ha
  obtain ⟨m, rfl⟩ := hb
  exact ⟨n + m, by push_cast; ring⟩

theorem IsHalfNat.zero : IsHalfNat 0 := ⟨0, by norm_num⟩

theorem IsHalfNat.one : IsHalfNat 1 := ⟨2, by norm_num⟩

theorem IsHalfNat.two : IsHalfNat 2 := ⟨4, by norm_num⟩

theorem IsHalfNat.half : IsHalfNat (1/2) := ⟨1, by norm_num⟩

theorem IsHalfNat.threeHalves : IsHalfNat (3/2) := ⟨3, by norm_num⟩

theorem IsHalfNat.ite {c : Prop} [Decidable c] {a b : ℚ} (ha : IsHalfNat a)
    (hb : IsHalfNat b) : IsHalfNat (if c then a else b) := by
  split
  · exact ha
  · exact hb

theorem IsHalfNat.clamp {a : ℚ} (ha : IsHalfNat a) (m : ℕ) :
    IsHalfNat (max (min a (m : ℚ)) 0) := by
  obtain ⟨n, rfl⟩ := ha
  refine ⟨min n (2 * m), ?_⟩
  have hmin : min ((n : ℚ) / 2) (m : ℚ) = ((min n (2 * m) : ℕ) : ℚ) / 2 := by
    rcases le_total n (2 * m) with h | h
    · have h1 : (n : ℚ) / 2 ≤ (m : ℚ) := by
        have h2 : (n : ℚ) ≤ 2 * m := by exact_mod_cast h
        linarith
      rw [min_eq_left h1, min_eq_left h]
    · have h1 : (m : ℚ) ≤ (n : ℚ) / 2 := by
        have h2 : (2 * m : ℚ) ≤ n := by exact_mod_cast h
        linarith
      rw [min_eq_right h1, min_eq_right h]
      push_cast
      ring
  rw [hmin, max_eq_left]
  positivity

theorem round1_of_isHalfNat {a : ℚ} (ha : IsHalfNat a) : round1 a = a := by
  obtain ⟨n, rfl⟩ := ha
  exact round1_halfNat n

theorem round1_two : round1 (2 : ℚ) = 2 := by
  have h := round1_natCast 2
  norm_num at h
  exact h

theorem round1_three : round1 (3 : ℚ) = 3 := by
  have h := round1_natCast 3
  norm_num at h
  exact h

/-! ### Claim theorems -/

/-- Claim C2: when one of the four analyzer tasks rejects, the aggregate
report keeps the other three reports exactly as produced, replaces the
rejected slot by `{success:false, error:<message>}`, and `passedChecks`
counts the reports whose `success` is true. -/
theorem C2_rejection_isolated (domain m : String) (r2 r3 r4 : ProtocolReport) :
    (let A := analyzeEmailSecurity domain (.rejected m) (.fulfilled r2)
        (.fulfilled r3) (.fulfilled r4)
     A.dmarc = { success := false, error := some m } ∧ A.spf = r2 ∧ A.dkim = r3 ∧
       A.mx = r4 ∧
       A.summary.passedChecks =
         ([A.dmarc, A.spf, A.dkim, A.mx].filter (fun r => r.success)).length) ∧
    (let A := analyzeEmailSecurity domain (.fulfilled r2) (.rejected m)
        (.fulfilled r3) (.fulfilled r4)
     A.spf = { success := false, error := some m } ∧ A.dmarc = r2 ∧ A.dkim = r3 ∧
       A.mx = r4 ∧
       A.summary.passedChecks =
         ([A.dmarc, A.spf, A.dkim, A.mx].filter (fun r => r.success)).length) ∧
    (let A := analyzeEmailSecurity domain (.fulfilled r2) (.fulfilled r3)
        (.rejected m) (.fulfilled r4)
     A.dkim = { success := false, error := some m } ∧ A.dmarc = r2 ∧ A.spf = r3 ∧
       A.mx = r4 ∧
       A.summary.passedChecks =
         ([A.dmarc, A.spf, A.dkim, A.mx].filter (fun r => r.success)).length) ∧
    (let A := analyzeEmailSecurity domain (.fulfilled r2) (.fulfilled r3)
        (.fulfilled r4) (.rejected m)
     A.mx = { success := false, error := some m } ∧ A.dmarc = r2 ∧ A.spf = r3 ∧
       A.dkim = r4 ∧
       A.summary.passedChecks =
         ([A.dmarc, A.spf, A.dkim, A.mx].filter (fun r => r.success)).length) :=
  ⟨⟨rfl, rfl, rfl, rfl, rfl⟩, ⟨rfl, rfl, rfl, rfl, rfl⟩,
   ⟨rfl, rfl, rfl, rfl, rfl⟩, ⟨rfl, rfl, rfl, rfl, rfl⟩⟩

/-- Claim C1: the overall score is the contributing values divided by the
contributing ceilings, times 10, rounded to one decimal; it is 0 when no
protocol both succeeded and carried a score; it is 10 when all four succeed
at full score, and 0 when all four fail. -/
theorem C1_overall_score (domain : String) (s1 s2 s3 s4 : Settled ProtocolReport) :
    (analyzeEmailSecurity domain s1 s2 s3 s4).overallScore.value =
      (if 0 < (scoreContrib (settleReport s1)).2 + (scoreContrib (settleReport s2)).2 +
            (scoreContrib (settleReport s3)).2 + (scoreContrib (settleReport s4)).2 then
        round1 (((scoreContrib (settleReport s1)).1 + (scoreContrib (settleReport s2)).1 +
            (scoreContrib (settleReport s3)).1 + (scoreContrib (settleReport s4)).1) /
          ((scoreContrib (settleReport s1)).2 + (scoreContrib (settleReport s2)).2 +
            (scoreContrib (settleReport s3)).2 + (scoreContrib (settleReport s4)).2) * 10)
      else 0) ∧
    ((∀ r ∈ [settleReport s1, settleReport s2, settleReport s3, settleReport s4],
        r.success = true ∧ ∃ sc, r.score = some sc ∧ sc.value = sc.outOf ∧ 0 < sc.outOf) →
      (analyzeEmailSecurity domain s1 s2 s3 s4).overallScore.value = 10) ∧
    ((∀ r ∈ [settleReport s1, settleReport s2, settleReport s3, settleReport s4],
        r.success = false) →
      (analyzeEmailSecurity domain s1 s2 s3 s4).overallScore.value = 0) := by
  have hval : ∀ (c : Prop) [Decidable c] (x : ℚ),
      round1 (if c then x else 0) = if c then round1 x else 0 := by
    intro c _ x
    split
    · rfl
    · exact round1_zero
  refine ⟨?_, ?_, ?_⟩
  · show round1 _ = _
    rw [hval]
  · intro h
    obtain ⟨h1s, sc1, h1sc, h1v, h1p⟩ := h (settleReport s1) (by simp)
    obtain ⟨h2s, sc2, h2sc, h2v, h2p⟩ := h (settleReport s2) (by simp)
    obtain ⟨h3s, sc3, h3sc, h3v, h3p⟩ := h (settleReport s3) (by simp)
    obtain ⟨h4s, sc4, h4sc, h4v, h4p⟩ := h (settleReport s4) (by simp)
    have c1 : scoreContrib (settleReport s1) = (sc1.outOf, sc1.outOf) := by
      simp [scoreContrib, h1sc, h1s, h1v]
    have c2 : scoreContrib (settleReport s2) = (sc2.outOf, sc2.outOf) := by
      simp [scoreContrib, h2sc, h2s, h2v]
    have c3 : scoreContrib (settleReport s3) = (sc3.outOf, sc3.outOf) := by
      simp [scoreContrib, h3sc, h3s, h3v]
    have c4 : scoreContrib (settleReport s4) = (sc4.outOf, sc4.outOf) := by
      simp [scoreContrib, h4sc, h4s, h4v]
    show round1 _ = 10
    rw [c1, c2, c3, c4]
    have hS : (0:ℚ) < sc1.outOf + sc2.outOf + sc3.outOf + sc4.outOf := by linarith
    simp only [hS, if_pos]
    rw [div_self (ne_of_gt hS), one_mul]
    exact round1_natCast 10
  · intro h
    have c1 := scoreContrib_of_not_success (h (settleReport s1) (by simp))
    have c2 := scoreContrib_of_not_success (h (settleReport s2) (by simp))
    have c3 := scoreContrib_of_not_success (h (settleReport s3) (by simp))
    have c4 := scoreContrib_of_not_success (h (settleReport s4) (by simp))
    show round1 _ = 0
    rw [c1, c2, c3, c4]
    norm_num
    exact round1_zero

/-- Witness for C1: with all four reports succeeding at full score the
overall value is 10, and with all four failing it is 0. -/
theorem C1_overall_score_witness :
    (analyzeEmailSecurity "example.com"
      (.fulfilled { success := true, score := some { value := 5, outOf := 5, level := "Excellent" } })
      (.fulfilled { success := true, score := some { value := 5, outOf := 5, level := "Excellent" } })
      (.fulfilled { success := true, score := some { value := 5, outOf := 5, level := "Excellent" } })
      (.fulfilled { success := true, score := some { value := 5, outOf := 5, level := "Excellent" } })).overallScore.value
      = 10 ∧
    (analyzeEmailSecurity "example.com" (.rejected "a") (.rejected "b") (.rejected "c")
      (.rejected "d")).overallScore.value = 0 := by
  constructor
  · have h := (C1_overall_score "example.com"
      (.fulfilled { success := true, score := some { value := 5, outOf := 5, level := "Excellent" } })
      (.fulfilled { success := true, score := some { value := 5, outOf := 5, level := "Excellent" } })
      (.fulfilled { success := true, score := some { value := 5, outOf := 5, level := "Excellent" } })
      (.fulfilled { success := true, score := some { value := 5, outOf := 5, level := "Excellent" } })).2.1
    apply h
    intro r hr
    simp only [settleReport, List.mem_cons, List.mem_singleton, List.not_mem_nil,
      or_false] at hr
    rcases hr with rfl | rfl | rfl | rfl <;>
      exact ⟨rfl, ⟨{ value := 5, outOf := 5, level := "Excellent" }, rfl, rfl, by norm_num⟩⟩
  · have h := (C1_overall_score "example.com" (.rejected "a") (.rejected "b")
      (.rejected "c") (.rejected "d")).2.2
    apply h
    intro r hr
    simp only [settleReport, List.mem_cons, List.mem_singleton, List.not_mem_nil,
      or_false] at hr
    rcases hr with rfl | rfl | rfl | rfl <;> rfl

/-- Claim C10: `analyzeSPF` never attaches a `score` field, so in the
aggregator the SPF slot contributes to neither sum and the overall score is
computed over at most DMARC, DKIM and MX. -/
theorem C10_spf_never_scored :
    (∀ (domain : String) (fetch : TxtFetch) (probes : String → Except String SpfStatus),
      (analyzeSPF domain fetch probes).score = none) ∧
    (∀ (domain : String) (fetch : TxtFetch) (probes : String → Except String SpfStatus)
        (d k m : Settled ProtocolReport),
      (analyzeEmailSecurity domain d (.fulfilled (analyzeSPF domain fetch probes))
          k m).overallScore.value =
        (if 0 < (scoreContrib (settleReport d)).2 + (scoreContrib (settleReport k)).2 +
              (scoreContrib (settleReport m)).2 then
          round1 (((scoreContrib (settleReport d)).1 + (scoreContrib (settleReport k)).1 +
              (scoreContrib (settleReport m)).1) /
            ((scoreContrib (settleReport d)).2 + (scoreContrib (settleReport k)).2 +
              (scoreContrib (settleReport m)).2) * 10)
        else 0)) := by
  have hnone : ∀ (domain : String) (fetch : TxtFetch)
      (probes : String → Except String SpfStatus),
      (analyzeSPF domain fetch probes).score = none := by
    intro domain fetch probes
    cases fetch with
    | err code message =>
      simp only [analyzeSPF]
      split <;> rfl
    | ok txtRecords =>
      simp only [analyzeSPF]
      split
      · rfl
      · split <;> rfl
  refine ⟨hnone, ?_⟩
  intro domain fetch probes d k m
  have hc : scoreContrib (settleReport (.fulfilled (analyzeSPF domain fetch probes))) =
      (0, 0) := scoreContrib_of_score_none (hnone domain fetch probes)
  have hval : ∀ (c : Prop) [Decidable c] (x : ℚ),
      round1 (if c then x else 0) = if c then round1 x else 0 := by
    intro c _ x
    split
    · rfl
    · exact round1_zero
  show round1 _ = _
  rw [hc, hval]
  norm_num

/-- Claim C3: with two or more TXT records whose lowercased text starts with
`v=spf1`, `analyzeSPF` fails fatally: `success:false`, the fixed
"Fatal: Multiple SPF records found." error (which contains "Multiple SPF
records"), the concatenated raw records, and warnings distinct from the
"not found" outcome. -/
theorem C3_multiple_spf_fatal (domain : String) (txtRecords : List (List String))
    (probes : String → Except String SpfStatus)
    (h : 2 ≤ ((txtRecords.map concatAll).filter
      (fun txt => strStarts (toLowerStr txt) "v=spf1")).length) :
    (analyzeSPF domain (.ok txtRecords) probes).success = false ∧
    (analyzeSPF domain (.ok txtRecords) probes).error =
      some "Fatal: Multiple SPF records found." ∧
    strContains "Fatal: Multiple SPF records found." "Multiple SPF records" = true ∧
    (analyzeSPF domain (.ok txtRecords) probes).rawRecord =
      some (joinSep " | " ((txtRecords.map concatAll).filter
        (fun txt => strStarts (toLowerStr txt) "v=spf1"))) ∧
    (analyzeSPF domain (.ok txtRecords) probes).warnings =
      some ["Multiple SPF records will cause authentication failures.",
            "Email delivery may be severely impacted."] ∧
    (analyzeSPF domain (.ok txtRecords) probes).warnings ≠
      (spfNotFoundReport domain).warnings := by
  have h0 : ¬((txtRecords.map concatAll).filter
      (fun txt => strStarts (toLowerStr txt) "v=spf1")).length = 0 := by omega
  have h1 : ((txtRecords.map concatAll).filter
      (fun txt => strStarts (toLowerStr txt) "v=spf1")).length > 1 := by omega
  simp only [analyzeSPF]
  rw [if_neg h0, if_pos h1]
  refine ⟨rfl, rfl, by decide, rfl, rfl, by simp [spfMultipleReport, spfNotFoundReport]⟩

theorem checkRateLimitSeq_append (store : RateStore) (ip : String) (xs ys : List Nat) :
    checkRateLimitSeq store ip (xs ++ ys) =
      ((checkRateLimitSeq store ip xs).1 ++
         (checkRateLimitSeq (checkRateLimitSeq store ip xs).2 ip ys).1,
       (checkRateLimitSeq (checkRateLimitSeq store ip xs).2 ip ys).2) := by
  induction xs generalizing store with
  | nil => simp [checkRateLimitSeq]
  | cons t ts ih => simp [checkRateLimitSeq, ih]

theorem checkRateLimit_step {store : RateStore} {ip : String} {c r : Nat} (t : Nat)
    (hstore : store ip = some ⟨c, r⟩) (ht : t ≤ r) (hc : c < 10) :
    checkRateLimit store ip t =
      ({ allowed := true, remaining := some (10 - (c + 1)) },
       storeSet store ip ⟨c + 1, r⟩) := by
  unfold checkRateLimit
  rw [hstore]
  have h1 : ¬ t > r := by omega
  have h2 : ¬ c ≥ 10 := by omega
  simp [h1, h2]

theorem checkRateLimitSeq_run (ip : String) (ts : List Nat) :
    ∀ (store : RateStore) (c r : Nat), store ip = some ⟨c, r⟩ →
    (∀ t ∈ ts, t ≤ r) → c + ts.length ≤ 10 →
    (checkRateLimitSeq store ip ts).1.map (fun x => x.allowed) =
      List.replicate ts.length true ∧
    (checkRateLimitSeq store ip ts).2 ip = some ⟨c + ts.length, r⟩ := by
  induction ts with
  | nil =>
    intro store c r hstore _ _
    simpa [checkRateLimitSeq] using hstore
  | cons t ts ih =>
    intro store c r hstore hts hlen
    have hstep := checkRateLimit_step t hstore (hts t (by simp)) (by simp at hlen; omega)
    have hnext : (storeSet store ip ⟨c + 1, r⟩) ip = some ⟨c + 1, r⟩ := by
      simp [storeSet]
    obtain ⟨ha, hs⟩ := ih (storeSet store ip ⟨c + 1, r⟩) (c + 1) r hnext
      (fun t' ht' => hts t' (List.mem_cons_of_mem t ht')) (by simp at hlen ⊢; omega)
    refine ⟨?_, ?_⟩
    · simp [checkRateLimitSeq, hstep, ha, List.replicate_succ]
    · simp only [checkRateLimitSeq, hstep]
      have hlen2 : c + 1 + ts.length = c + (t :: ts).length := by
        simp [List.length_cons]
        omega
      rw [hs, hlen2]

/-- Witness for C3: a domain with exactly two `v=spf1` TXT records. -/
theorem C3_multiple_spf_fatal_witness :
    2 ≤ (([["v=spf1 include:_spf.a.com ~all"], ["V=SPF1 -all"]].map concatAll).filter
      (fun txt => strStarts (toLowerStr txt) "v=spf1")).length ∧
    (analyzeSPF "example.com" (.ok [["v=spf1 include:_spf.a.com ~all"], ["V=SPF1 -all"]])
      (fun _ => .error "probe unavailable")).success = false ∧
    (analyzeSPF "example.com" (.ok [["v=spf1 include:_spf.a.com ~all"], ["V=SPF1 -all"]])
      (fun _ => .error "probe unavailable")).error =
      some "Fatal: Multiple SPF records found." := by
  have h : 2 ≤ (([["v=spf1 include:_spf.a.com ~all"], ["V=SPF1 -all"]].map concatAll).filter
      (fun txt => strStarts (toLowerStr txt) "v=spf1")).length := by decide
  have hc := C3_multiple_spf_fatal "example.com"
    [["v=spf1 include:_spf.a.com ~all"], ["V=SPF1 -all"]]
    (fun _ => .error "probe unavailable") h
  exact ⟨h, hc.1, hc.2.1⟩

/-- Claim C9: from a fresh address, of 11 calls inside one window the first
10 are allowed and the 11th is denied with the window's `resetTime`; a
later call past that `resetTime` is allowed again with a fresh window and
count 1. -/
theorem C9_rate_limit_window (store : RateStore) (ip : String) (t0 : Nat)
    (ts : List Nat) (t11 t12 : Nat) (hnone : store ip = none) (hlen : ts.length = 9)
    (hts : ∀ t ∈ ts, t ≤ t0 + 60000) (h11 : t11 ≤ t0 + 60000)
    (h12 : t0 + 60000 < t12) :
    (checkRateLimitSeq store ip (t0 :: (ts ++ [t11]))).1.map (fun x => x.allowed) =
      List.replicate 10 true ++ [false] ∧
    (checkRateLimitSeq store ip (t0 :: (ts ++ [t11]))).1.getLast? =
      some { allowed := false,
             error := some "Too many requests. Please try again later.",
             resetTime := some (t0 + 60000) } ∧
    (checkRateLimit (checkRateLimitSeq store ip (t0 :: (ts ++ [t11]))).2 ip t12).1.allowed
      = true ∧
    (checkRateLimit (checkRateLimitSeq store ip (t0 :: (ts ++ [t11]))).2 ip t12).2 ip =
      some ⟨1, t12 + 60000⟩ := by
  have hstep0 : checkRateLimit store ip t0 =
      ({ allowed := true, remaining := some (10 - 1) },
       storeSet store ip ⟨1, t0 + 60 * 1000⟩) := by
    unfold checkRateLimit
    rw [hnone]
  have hw : t0 + 60 * 1000 = t0 + 60000 := by norm_num
  have hstore1 : (storeSet store ip ⟨1, t0 + 60 * 1000⟩) ip = some ⟨1, t0 + 60000⟩ := by
    simp [storeSet, hw]
  obtain ⟨ha, hs⟩ := checkRateLimitSeq_run ip ts _ 1 (t0 + 60000) hstore1 hts
    (by omega)
  have h10 : 1 + ts.length = 10 := by omega
  rw [h10] at hs
  have hstep11 : checkRateLimit (checkRateLimitSeq
      (storeSet store ip ⟨1, t0 + 60 * 1000⟩) ip ts).2 ip t11 =
      ({ allowed := false,
         error := some "Too many requests. Please try again later.",
         resetTime := some (t0 + 60000) },
       (checkRateLimitSeq (storeSet store ip ⟨1, t0 + 60 * 1000⟩) ip ts).2) := by
    unfold checkRateLimit
    rw [hs]
    have h1 : ¬ t11 > t0 + 60000 := by omega
    simp [h1]
  have hseq : checkRateLimitSeq store ip (t0 :: (ts ++ [t11])) =
      (({ allowed := true, remaining := some (10 - 1) } : RateResult) ::
        ((checkRateLimitSeq (storeSet store ip ⟨1, t0 + 60 * 1000⟩) ip ts).1 ++
          [{ allowed := false,
             error := some "Too many requests. Please try again later.",
             resetTime := some (t0 + 60000) }]),
       (checkRateLimitSeq (storeSet store ip ⟨1, t0 + 60 * 1000⟩) ip ts).2) := by
    show (let r := checkRateLimit store ip t0
          let rest := checkRateLimitSeq r.2 ip (ts ++ [t11])
          (r.1 :: rest.1, rest.2)) = _
    rw [hstep0]
    have happ := checkRateLimitSeq_append
      (storeSet store ip ⟨1, t0 + 60 * 1000⟩) ip ts [t11]
    simp only [happ]
    simp [checkRateLimitSeq, hstep11]
  have hstep12 : checkRateLimit (checkRateLimitSeq
      (storeSet store ip ⟨1, t0 + 60 * 1000⟩) ip ts).2 ip t12 =
      ({ allowed := true, remaining := some (10 - 1) },
       storeSet (checkRateLimitSeq (storeSet store ip ⟨1, t0 + 60 * 1000⟩) ip ts).2
         ip ⟨1, t12 + 60 * 1000⟩) := by
    unfold checkRateLimit
    rw [hs]
    have h1 : t12 > t0 + 60000 := h12
    simp [h1]
  refine ⟨?_, ?_, ?_, ?_⟩
  · rw [hseq]
    simp [ha, hlen, List.replicate_succ]
  · rw [hseq]
    exact List.getLast?_concat
      ({ allowed := true, remaining := some (10 - 1) } ::
        (checkRateLimitSeq (storeSet store ip ⟨1, t0 + 60 * 1000⟩) ip ts).1)
  · rw [hseq]
    simp only [hstep12]
  · rw [hseq]
    simp only [hstep12]
    simp [storeSet]

theorem keyAfterP_mem : ∀ cs : List Char, (keyAfterP cs).isSome →
    cs.tails.any (fun t => ['p', '='].isPrefixOf t) = true := by
  intro cs
  induction cs with
  | nil => simp [keyAfterP]
  | cons c rest ih =>
    intro h
    rw [List.tails_cons, List.any_cons]
    simp only [keyAfterP] at h
    by_cases hc : c = 'p'
    · rw [if_pos hc] at h
      subst hc
      split at h
      · split at h
        · simp [List.isPrefixOf]
        · simp [ih h]
      · simp [ih h]
    · rw [if_neg hc] at h
      simp [ih h]

theorem keyAfterP_none_of_no_p {s : String} (h : strContains s "p=" = false) :
    keyAfterP s.data = none := by
  by_contra hne
  have h1 : (keyAfterP s.data).isSome := Option.ne_none_iff_isSome.mp hne
  have h2 := keyAfterP_mem s.data h1
  have h3 : strContains s "p=" = true := h2
  rw [h3] at h
  cases h

theorem dkimMailauthSeg_bonus (res : Option DkimAuthResult) :
    (dkimMailauthSeg res).2 = 0 ∨ (dkimMailauthSeg res).2 = 1/2 := by
  rcases res with _ | dr
  · left
    rfl
  · rcases hdr : dr.results with _ | ⟨r, rest⟩
    · left
      simp [dkimMailauthSeg, hdr]
    · rcases hst : r.status with _ | st
      · left
        simp [dkimMailauthSeg, hdr, hst]
      · rcases hres : st.result with _ | s
        · left
          simp [dkimMailauthSeg, hdr, hst, hres]
        · by_cases hs : s = ""
          · left
            simp [dkimMailauthSeg, hdr, hst, hres, hs]
          · by_cases hp : s = "pass"
            · right
              simp [dkimMailauthSeg, hdr, hst, hres, hs, hp]
            · left
              simp [dkimMailauthSeg, hdr, hst, hres, hs, hp]

theorem dkimMailauthSeg_mem (res : Option DkimAuthResult) :
    ∀ x ∈ (dkimMailauthSeg res).1, (∃ r, x = dkimMailauthD r) ∨ x = dkimPassD ∨
      x = dkimNeutralD ∨ ∃ i, x = dkimInfoD i := by
  intro x hx
  rcases res with _ | dr
  · simp [dkimMailauthSeg] at hx
  · rcases hdr : dr.results with _ | ⟨r, rest⟩
    · simp [dkimMailauthSeg, hdr] at hx
    · rcases hst : r.status with _ | st <;>
        rcases hinfo : r.info with _ | i
      · simp [dkimMailauthSeg, hdr, hst, hinfo] at hx
      · simp [dkimMailauthSeg, hdr, hst, hinfo] at hx
        by_cases hi : i = ""
        · simp [hi] at hx
        · simp [hi] at hx
          exact .inr (.inr (.inr ⟨i, hx⟩))
      · rcases hres : st.result with _ | s
        · simp [dkimMailauthSeg, hdr, hst, hres, hinfo] at hx
        · by_cases hs : s = ""
          · simp [dkimMailauthSeg, hdr, hst, hres, hinfo, hs] at hx
          · simp [dkimMailauthSeg, hdr, hst, hres, hinfo, hs] at hx
            rcases hx with hx | hx
            · exact .inl ⟨s, hx⟩
            · by_cases hp : s = "pass"
              · simp [hp] at hx
                exact .inr (.inl hx)
              · by_cases hn : s = "neutral"
                · simp [hp, hn] at hx
                  exact .inr (.inr (.inl hx))
                · simp [hp, hn] at hx
      · rcases hres : st.result with _ | s
        · simp [dkimMailauthSeg, hdr, hst, hres, hinfo] at hx
          by_cases hi : i = ""
          · simp [hi] at hx
          · simp [hi] at hx
            exact .inr (.inr (.inr ⟨i, hx⟩))
        · by_cases hs : s = ""
          · simp [dkimMailauthSeg, hdr, hst, hres, hinfo, hs] at hx
            by_cases hi : i = ""
            · simp [hi] at hx
            · simp [hi] at hx
              exact .inr (.inr (.inr ⟨i, hx⟩))
          · simp [dkimMailauthSeg, hdr, hst, hres, hinfo, hs] at hx
            rcases hx with hx | hx
            · exact .inl ⟨s, hx⟩
            · rcases hx with hx | hx
              · by_cases hp : s = "pass"
                · simp [hp] at hx
                  exact .inr (.inl hx)
                · by_cases hn : s = "neutral"
                  · simp [hp, hn] at hx
                    exact .inr (.inr (.inl hx))
                  · simp [hp, hn] at hx
              · by_cases hi : i = ""
                · simp [hi] at hx
                · simp [hi] at hx
                  exact .inr (.inr (.inr ⟨i, hx⟩))

/-- Counterexample for C5: on the sole null MX record set
`[{priority:0, exchange:"."}]` the analysis emits two warnings — the
priority-0 warning fires before the null-MX warning — not exactly one. -/
theorem C5_null_mx_counterexample :
    (analyzeMXRecords [⟨0, "."⟩]).warnings = [mxPrio0W, mxNullSoleW] ∧
    (analyzeMXRecords [⟨0, "."⟩]).warnings.length ≠ 1 := by
  constructor
  · decide
  · decide

/-- Claim C5 (amended): the sole null MX record set `[{priority:0, exchange:"."}]`
yields score 0 with the single null-MX score detail, but its warnings are
the priority-0 warning followed by the null-MX warning (two warnings, and
the null-MX warning text is the "does not accept email" one); a null MX
mixed with other records instead gets the milder mixed-configuration
warning, not the sole-null-MX warning, and the score is not zeroed (it
stays at least 2). -/
theorem C5_null_mx_amended :
    ((analyzeMXRecords [⟨0, "."⟩]).score.value = 0 ∧
     (analyzeMXRecords [⟨0, "."⟩]).score.details = some [mxNullSoleD] ∧
     (analyzeMXRecords [⟨0, "."⟩]).warnings = [mxPrio0W, mxNullSoleW]) ∧
    (∀ records : List MxRecord, 2 ≤ records.length →
      records.any (fun r => r.exchange = "." ∨ r.exchange = "") = true →
      mxNullMixedW ∈ (analyzeMXRecords records).warnings ∧
      mxNullSoleW ∉ (analyzeMXRecords records).warnings ∧
      2 ≤ (analyzeMXRecords records).score.value) := by
  refine ⟨⟨?_, ?_, ?_⟩, ?_⟩
  · simp [analyzeMXRecords, dedupFirst, dedupFirstAux, mxDetectedProviders, strContains,
      toLowerStr, round1_zero]
  · decide
  · decide
  · intro records h2 hnull
    have h0 : ¬records.length = 0 := by omega
    have hl1 : (records.length = 1) = False := by
      simp only [eq_iff_iff, iff_false]
      omega
    have h2' : records.length ≥ 2 := h2
    have dSole : mxNullSoleW ≠ mxSamePrioW := by decide
    have dSole2 : mxNullSoleW ≠ mxPrio0W := by decide
    have dSole3 : mxNullSoleW ≠ mxNullMixedW := by decide
    simp only [analyzeMXRecords, if_neg h0, hnull, hl1, and_false, if_false, true_and,
      if_pos h2']
    refine ⟨?_, ?_, ?_⟩
    · simp
    · intro hmem
      simp only [List.mem_append] at hmem
      rcases hmem with (hmem | hmem) | hmem
      · split at hmem
        · simp at hmem
        · simp at hmem
          exact dSole hmem
      · split at hmem
        · simp at hmem
          exact dSole2 hmem
        · simp at hmem
      · simp at hmem
        exact dSole3 hmem
    · have hbase : ∀ u : Prop, ∀ _ : Decidable u,
          (2:ℚ) ≤ round1 (max (min (1 + 1 + (if u then 1 else 0)) 3) 0) := by
        intro u _
        split
        · norm_num [round1_three]
        · norm_num [round1_two]
      exact hbase _ _

/-- Witness for C5 (amended), mixed-null part: a null MX alongside a real
exchange keeps a positive score and gets the mixed warning. -/
theorem C5_null_mx_amended_witness :
    2 ≤ ([⟨1, "."⟩, ⟨2, "mx.example.com"⟩] : List MxRecord).length ∧
    mxNullMixedW ∈ (analyzeMXRecords [⟨1, "."⟩, ⟨2, "mx.example.com"⟩]).warnings ∧
    mxNullSoleW ∉ (analyzeMXRecords [⟨1, "."⟩, ⟨2, "mx.example.com"⟩]).warnings ∧
    2 ≤ (analyzeMXRecords [⟨1, "."⟩, ⟨2, "mx.example.com"⟩]).score.value := by
  have h := (C5_null_mx_amended).2 [⟨1, "."⟩, ⟨2, "mx.example.com"⟩]
    (by decide) (by decide)
  exact ⟨by decide, h.1, h.2.1, h.2.2⟩

theorem round1_clamp_bounds (b m : ℚ) (hm : round1 m = m) (h0 : 0 ≤ m) :
    0 ≤ round1 (max (min b m) 0) ∧ round1 (max (min b m) 0) ≤ m := by
  constructor
  · exact round1_nonneg (le_max_right _ _)
  · exact le_trans (round1_mono (max_le (min_le_right _ _) h0)) (le_of_eq hm)

theorem round1_five : round1 (5 : ℚ) = 5 := round1_of_isHalfNat ⟨10, by norm_num⟩

theorem round1_ten : round1 (10 : ℚ) = 10 := round1_of_isHalfNat ⟨20, by norm_num⟩

theorem scoreContrib_bounds {r : ProtocolReport}
    (h : ∀ sc, r.score = some sc → 0 ≤ sc.value ∧ sc.value ≤ sc.outOf) :
    0 ≤ (scoreContrib r).1 ∧ (scoreContrib r).1 ≤ (scoreContrib r).2 := by
  unfold scoreContrib
  cases hsc : r.score with
  | none => norm_num
  | some sc =>
    by_cases hs : r.success = true
    · simp [hs]
      exact (h sc hsc).imp id id
    · simp [hs]

/-- Claim C8: every DKIM score satisfies `0 ≤ value ≤ outOf = 5`, every MX
score `0 ≤ value ≤ outOf = 3`, and — whenever the four protocol reports'
own scores satisfy `0 ≤ value ≤ outOf` — the aggregate `overallScore`
satisfies `0 ≤ value ≤ outOf = 10`. -/
theorem C8_score_bounds :
    (∀ (record : String) (res : Option DkimAuthResult),
      (analyzeDKIMRecord record res).score.outOf = 5 ∧
      0 ≤ (analyzeDKIMRecord record res).score.value ∧
      (analyzeDKIMRecord record res).score.value ≤ 5) ∧
    (∀ records : List MxRecord,
      (analyzeMXRecords records).score.outOf = 3 ∧
      0 ≤ (analyzeMXRecords records).score.value ∧
      (analyzeMXRecords records).score.value ≤ 3) ∧
    (∀ (domain : String) (s1 s2 s3 s4 : Settled ProtocolReport),
      (∀ r ∈ [settleReport s1, settleReport s2, settleReport s3, settleReport s4],
        ∀ sc, r.score = some sc → 0 ≤ sc.value ∧ sc.value ≤ sc.outOf) →
      (analyzeEmailSecurity domain s1 s2 s3 s4).overallScore.outOf = 10 ∧
      0 ≤ (analyzeEmailSecurity domain s1 s2 s3 s4).overallScore.value ∧
      (analyzeEmailSecurity domain s1 s2 s3 s4).overallScore.value ≤ 10) := by
  refine ⟨?_, ?_, ?_⟩
  · intro record res
    by_cases hc : ¬(strContains record "v=DKIM1" = true ∨ strContains record "k=rsa" = true ∨
        strContains record "p=" = true)
    · simp only [analyzeDKIMRecord, if_pos hc]
      norm_num
    · simp only [analyzeDKIMRecord, if_neg hc]
      refine ⟨trivial, ?_, ?_⟩
      · exact (round1_clamp_bounds _ 5 round1_five (by norm_num)).1
      · exact (round1_clamp_bounds _ 5 round1_five (by norm_num)).2
  · intro records
    by_cases hc : records.length = 0
    · simp only [analyzeMXRecords, if_pos hc]
      norm_num
    · simp only [analyzeMXRecords, if_neg hc]
      refine ⟨trivial, ?_, ?_⟩
      · exact (round1_clamp_bounds _ 3 round1_three (by norm_num)).1
      · exact (round1_clamp_bounds _ 3 round1_three (by norm_num)).2
  · intro domain s1 s2 s3 s4 h
    obtain ⟨b1l, b1r⟩ := scoreContrib_bounds (h (settleReport s1) (by simp))
    obtain ⟨b2l, b2r⟩ := scoreContrib_bounds (h (settleReport s2) (by simp))
    obtain ⟨b3l, b3r⟩ := scoreContrib_bounds (h (settleReport s3) (by simp))
    obtain ⟨b4l, b4r⟩ := scoreContrib_bounds (h (settleReport s4) (by simp))
    refine ⟨rfl, ?_, ?_⟩
    · show 0 ≤ round1 _
      apply round1_nonneg
      split
      · have hS : (0:ℚ) < (scoreContrib (settleReport s1)).2 +
            (scoreContrib (settleReport s2)).2 + (scoreContrib (settleReport s3)).2 +
            (scoreContrib (settleReport s4)).2 := by assumption
        have hT : (0:ℚ) ≤ (scoreContrib (settleReport s1)).1 +
            (scoreContrib (settleReport s2)).1 + (scoreContrib (settleReport s3)).1 +
            (scoreContrib (settleReport s4)).1 := by linarith
        positivity
      · exact le_refl 0
    · show round1 _ ≤ 10
      refine le_trans (round1_mono ?_) (le_of_eq round1_ten)
      split
      · rename_i hS
        have hTS : (scoreContrib (settleReport s1)).1 + (scoreContrib (settleReport s2)).1 +
            (scoreContrib (settleReport s3)).1 + (scoreContrib (settleReport s4)).1 ≤
            (scoreContrib (settleReport s1)).2 + (scoreContrib (settleReport s2)).2 +
            (scoreContrib (settleReport s3)).2 + (scoreContrib (settleReport s4)).2 := by
          linarith
        have h1 : _ / _ ≤ (1:ℚ) := (div_le_one hS).mpr hTS
        nlinarith [h1]
      · norm_num

/-- Witness for C8: the aggregate-score bound applied to one full-score
report and three rejections. -/
theorem C8_score_bounds_witness :
    (analyzeEmailSecurity "example.com"
      (.fulfilled { success := true, score := some { value := 5, outOf := 5, level := "Excellent" } })
      (.rejected "x") (.rejected "y") (.rejected "z")).overallScore.outOf = 10 ∧
    0 ≤ (analyzeEmailSecurity "example.com"
      (.fulfilled { success := true, score := some { value := 5, outOf := 5, level := "Excellent" } })
      (.rejected "x") (.rejected "y") (.rejected "z")).overallScore.value ∧
    (analyzeEmailSecurity "example.com"
      (.fulfilled { success := true, score := some { value := 5, outOf := 5, level := "Excellent" } })
      (.rejected "x") (.rejected "y") (.rejected "z")).overallScore.value ≤ 10 := by
  apply C8_score_bounds.2.2
  intro r hr sc hsc
  simp only [settleReport, List.mem_cons, List.mem_singleton, List.not_mem_nil,
    or_false] at hr
  rcases hr with rfl | rfl | rfl | rfl <;> simp_all
  · cases hsc
    norm_num

theorem IsHalfNat.clampQ {a m : ℚ} (ha : IsHalfNat a) (hm : IsHalfNat m) :
    IsHalfNat (max (min a m) 0) := by
  obtain ⟨n, rfl⟩ := ha
  obtain ⟨p, rfl⟩ := hm
  refine ⟨min n p, ?_⟩
  have hmin : min ((n : ℚ) / 2) ((p : ℚ) / 2) = ((min n p : ℕ) : ℚ) / 2 := by
    rcases le_total n p with h | h
    · rw [min_eq_left (by
        have h2 : (n:ℚ) ≤ p := by exact_mod_cast h
        linarith), min_eq_left h]
    · rw [min_eq_right (by
        have h2 : (p:ℚ) ≤ n := by exact_mod_cast h
        linarith), min_eq_right h]
  rw [hmin, max_eq_left (by positivity)]

theorem dkim_base_isHalfNat (record : String) (res : Option DkimAuthResult) :
    IsHalfNat (1 + (if (strContains record "p=" = true ∧ strContains record "p=;" = false)
        then (2:ℚ) else 0) +
      (if strContains record "k=rsa" = true then (1:ℚ)
       else if strContains record "k=ed25519" = true then 3/2 else 0) +
      (if strContains record "h=sha256" = true then (1:ℚ)
       else if strContains record "h=sha1" = true then 1/2 else 0) +
      (if strContains record "s=email" = true then (1:ℚ)/2 else 0) +
      (match keyAfterP record.data with
       | some key => if key.length > 300 then (1:ℚ)/2 else 0
       | none => 0) +
      (dkimMailauthSeg res).2) := by
  refine (((((IsHalfNat.one.add ?_).add ?_).add ?_).add ?_).add ?_).add ?_
  · exact IsHalfNat.ite IsHalfNat.two IsHalfNat.zero
  · exact IsHalfNat.ite IsHalfNat.one (IsHalfNat.ite IsHalfNat.threeHalves IsHalfNat.zero)
  · exact IsHalfNat.ite IsHalfNat.one (IsHalfNat.ite IsHalfNat.half IsHalfNat.zero)
  · exact IsHalfNat.ite IsHalfNat.half IsHalfNat.zero
  · cases keyAfterP record.data
    · exact IsHalfNat.zero
    · exact IsHalfNat.ite IsHalfNat.half IsHalfNat.zero
  · rcases dkimMailauthSeg_bonus res with hm | hm <;> rw [hm]
    · exact IsHalfNat.zero
    · exact IsHalfNat.half

theorem specLevelBand_five (F : ℚ) :
    specLevelBand F 5 = (if F ≥ 4 then "Excellent" else if F ≥ 3 then "Good"
      else if F ≥ 2 then "Fair" else "Poor") := by
  have e1 : (F / 5 ≥ 4/5) ↔ (F ≥ 4) := by constructor <;> intro h <;> linarith
  have e2 : (F / 5 ≥ 3/5) ↔ (F ≥ 3) := by constructor <;> intro h <;> linarith
  have e3 : (F / 5 ≥ 2/5) ↔ (F ≥ 2) := by constructor <;> intro h <;> linarith
  simp only [specLevelBand, e1, e2, e3]

theorem specLevelBand_ten (F : ℚ) :
    specLevelBand F 10 = (if F ≥ 8 then "Excellent" else if F ≥ 6 then "Good"
      else if F ≥ 4 then "Fair" else "Poor") := by
  have e1 : (F / 10 ≥ 4/5) ↔ (F ≥ 8) := by constructor <;> intro h <;> linarith
  have e2 : (F / 10 ≥ 3/5) ↔ (F ≥ 6) := by constructor <;> intro h <;> linarith
  have e3 : (F / 10 ≥ 2/5) ↔ (F ≥ 4) := by constructor <;> intro h <;> linarith
  simp only [specLevelBand, e1, e2, e3]

/-- Counterexample for C7: feeding the aggregator a succeeded report scored
7.95 out of 10, the unrounded overall score 7.95 yields level "Good" while
the stored value rounds to 8.0, whose ratio 8/10 = 80% demands "Excellent"
under the claimed band — so the level is not the claimed step function of
`value/outOf`. -/
theorem C7_level_band_counterexample :
    (analyzeEmailSecurity "example.com"
      (.fulfilled { success := true, score := some { value := 159/20, outOf := 10, level := "Good" } })
      (.rejected "x") (.rejected "y") (.rejected "z")).overallScore.value = 8 ∧
    (analyzeEmailSecurity "example.com"
      (.fulfilled { success := true, score := some { value := 159/20, outOf := 10, level := "Good" } })
      (.rejected "x") (.rejected "y") (.rejected "z")).overallScore.outOf = 10 ∧
    (analyzeEmailSecurity "example.com"
      (.fulfilled { success := true, score := some { value := 159/20, outOf := 10, level := "Good" } })
      (.rejected "x") (.rejected "y") (.rejected "z")).overallScore.level = "Good" ∧
    specLevelBand 8 10 = "Excellent" ∧
    (analyzeEmailSecurity "example.com"
      (.fulfilled { success := true, score := some { value := 159/20, outOf := 10, level := "Good" } })
      (.rejected "x") (.rejected "y") (.rejected "z")).overallScore.level ≠
      specLevelBand
        (analyzeEmailSecurity "example.com"
          (.fulfilled { success := true, score := some { value := 159/20, outOf := 10, level := "Good" } })
          (.rejected "x") (.rejected "y") (.rejected "z")).overallScore.value
        (analyzeEmailSecurity "example.com"
          (.fulfilled { success := true, score := some { value := 159/20, outOf := 10, level := "Good" } })
          (.rejected "x") (.rejected "y") (.rejected "z")).overallScore.outOf := by
  have hval : (analyzeEmailSecurity "example.com"
      (.fulfilled { success := true, score := some { value := 159/20, outOf := 10, level := "Good" } })
      (.rejected "x") (.rejected "y") (.rejected "z")).overallScore.value = 8 := by
    show round1 _ = 8
    norm_num [scoreContrib, settleReport, round1, jsRound]
  have hlvl : (analyzeEmailSecurity "example.com"
      (.fulfilled { success := true, score := some { value := 159/20, outOf := 10, level := "Good" } })
      (.rejected "x") (.rejected "y") (.rejected "z")).overallScore.level = "Good" := by
    show (if _ then _ else _) = "Good"
    norm_num [scoreContrib, settleReport]
  have hband : specLevelBand 8 10 = "Excellent" := by norm_num [specLevelBand]
  refine ⟨hval, rfl, hlvl, hband, ?_⟩
  rw [hval, hlvl]
  show _ ≠ specLevelBand 8 10
  rw [hband]
  decide

/-- Claim C7 (amended): the DKIM and MX analyzers' `level` is the 80/60/40
band of `value/outOf` (DKIM's thresholds 4/3/2 are exactly those percentages
of 5; MX's coded thresholds 2.5/2/1 coincide with the band on every score it
can produce); the aggregator's `level`, however, is the band of the
*unrounded* overall score, while `value` is rounded to one decimal, so the
band holds of the unrounded score rather than of `value/outOf`. -/
theorem C7_level_bands :
    (∀ (record : String) (res : Option DkimAuthResult),
      (analyzeDKIMRecord record res).score.level =
        specLevelBand (analyzeDKIMRecord record res).score.value
          (analyzeDKIMRecord record res).score.outOf) ∧
    (∀ records : List MxRecord,
      (analyzeMXRecords records).score.level =
        specLevelBand (analyzeMXRecords records).score.value
          (analyzeMXRecords records).score.outOf) ∧
    (∀ (domain : String) (s1 s2 s3 s4 : Settled ProtocolReport),
      (analyzeEmailSecurity domain s1 s2 s3 s4).overallScore.level =
        specLevelBand
          (if 0 < (scoreContrib (settleReport s1)).2 + (scoreContrib (settleReport s2)).2 +
                (scoreContrib (settleReport s3)).2 + (scoreContrib (settleReport s4)).2 then
            ((scoreContrib (settleReport s1)).1 + (scoreContrib (settleReport s2)).1 +
                (scoreContrib (settleReport s3)).1 + (scoreContrib (settleReport s4)).1) /
              ((scoreContrib (settleReport s1)).2 + (scoreContrib (settleReport s2)).2 +
                (scoreContrib (settleReport s3)).2 + (scoreContrib (settleReport s4)).2) * 10
          else 0) 10) := by
  refine ⟨?_, ?_, ?_⟩
  · intro record res
    by_cases hc : ¬(strContains record "v=DKIM1" = true ∨ strContains record "k=rsa" = true ∨
        strContains record "p=" = true)
    · simp only [analyzeDKIMRecord, if_pos hc]
      norm_num [specLevelBand]
    · simp only [analyzeDKIMRecord, if_neg hc]
      rw [specLevelBand_five]
      rw [round1_of_isHalfNat ((dkim_base_isHalfNat record res).clampQ ⟨10, by norm_num⟩)]
  · intro records
    by_cases hc : records.length = 0
    · simp only [analyzeMXRecords, if_pos hc]
      norm_num [specLevelBand]
    · simp only [analyzeMXRecords, if_neg hc]
      by_cases hnull : (records.any (fun r => r.exchange = "." ∨ r.exchange = "") = true ∧
          records.length = 1)
      · rw [if_pos hnull]
        norm_num [specLevelBand, round1_zero]
      · rw [if_neg hnull]
        match records, hc with
        | r :: rest, hc =>
          cases rest with
          | nil =>
            have h2 : ¬([r].length ≥ 2) := by simp
            have hu : (dedupFirst ([r].map (fun x => x.priority))).length = [r].length := by
              simp [dedupFirst, dedupFirstAux]
            rw [if_neg h2, if_pos hu]
            norm_num [specLevelBand, round1_two]
          | cons r2 rest2 =>
            have h2 : (r :: r2 :: rest2).length ≥ 2 := by simp
            rw [if_pos h2]
            by_cases hu : (dedupFirst ((r :: r2 :: rest2).map (fun x => x.priority))).length =
                (r :: r2 :: rest2).length
            · rw [if_pos hu]
              norm_num [specLevelBand, round1_three]
            · rw [if_neg hu]
              norm_num [specLevelBand, round1_two]
  · intro domain s1 s2 s3 s4
    rw [specLevelBand_ten]
    rfl

/-- Counterexample for C6: the DKIM-shaped record `v=DKIM1; k=rsa; h=sha256`
has no `p=` tag, yet scores 3 out of 5 (valid +1, rsa +1, sha256 +1), so the
claimed bound "score at most 1" is false. -/
theorem C6_dkim_missing_key_counterexample :
    dkimNoKeyW ∈ (analyzeDKIMRecord "v=DKIM1; k=rsa; h=sha256" none).warnings ∧
    (analyzeDKIMRecord "v=DKIM1; k=rsa; h=sha256" none).score.value = 3 ∧
    ¬((analyzeDKIMRecord "v=DKIM1; k=rsa; h=sha256" none).score.value ≤ 1) := by
  have c1 : strContains "v=DKIM1; k=rsa; h=sha256" "v=DKIM1" = true := by decide
  have cp : strContains "v=DKIM1; k=rsa; h=sha256" "p=" = false := by decide
  have ck : strContains "v=DKIM1; k=rsa; h=sha256" "k=rsa" = true := by decide
  have ch : strContains "v=DKIM1; k=rsa; h=sha256" "h=sha256" = true := by decide
  have cs : strContains "v=DKIM1; k=rsa; h=sha256" "s=email" = false := by decide
  have ckey : keyAfterP ("v=DKIM1; k=rsa; h=sha256").data = none :=
    keyAfterP_none_of_no_p cp
  have hval : (analyzeDKIMRecord "v=DKIM1; k=rsa; h=sha256" none).score.value = 3 := by
    simp [analyzeDKIMRecord, c1, cp, ck, ch, cs, ckey, dkimMailauthSeg]
    norm_num [round1_three]
  exact ⟨by decide, hval, by rw [hval]; norm_num⟩

/-- Claim C6 (amended): a fetched DKIM-shaped record without `p=` gets the
missing-public-key warning, earns no public-key points, and its score can
still reach up to 4.5 out of 5 from the other rules (not at most 1); the +2
public-key points are awarded exactly when `p=` occurs and `p=;` does not. -/
theorem C6_dkim_public_key (record : String) (res : Option DkimAuthResult)
    (hshape : strContains record "v=DKIM1" = true ∨ strContains record "k=rsa" = true ∨
      strContains record "p=" = true) :
    (strContains record "p=" = false →
      dkimNoKeyW ∈ (analyzeDKIMRecord record res).warnings ∧
      dkimPubD ∉ ((analyzeDKIMRecord record res).score.details.getD []) ∧
      (analyzeDKIMRecord record res).score.value ≤ 9/2) ∧
    (dkimPubD ∈ ((analyzeDKIMRecord record res).score.details.getD []) ↔
      (strContains record "p=" = true ∧ strContains record "p=;" = false)) := by
  have hcond : ¬¬(strContains record "v=DKIM1" = true ∨ strContains record "k=rsa" = true ∨
      strContains record "p=" = true) := not_not_intro hshape
  have hmailNe : dkimPubD ∉ (dkimMailauthSeg res).1 := by
    intro hx
    rcases dkimMailauthSeg_mem res _ hx with ⟨r, hr⟩ | hr | hr | ⟨i, hr⟩
    · rw [dkimMailauthD] at hr
      exact absurd hr.symm (strNe_of_getLit (i := 0) (by decide) (by decide))
    · exact absurd hr (by decide)
    · exact absurd hr (by decide)
    · rw [dkimInfoD] at hr
      exact absurd hr.symm (strNe_of_getLit (i := 0) (by decide) (by decide))
  constructor
  · intro hp
    have hkey : keyAfterP record.data = none := keyAfterP_none_of_no_p hp
    have hpub : ¬(strContains record "p=" = true ∧ strContains record "p=;" = false) := by
      intro hc
      have h1 := hc.1
      rw [hp] at h1
      cases h1
    refine ⟨?_, ?_, ?_⟩
    · simp only [analyzeDKIMRecord, if_neg hcond]
      simp [hpub]
    · simp only [analyzeDKIMRecord, if_neg hcond]
      simp [hpub, hkey]
      refine ⟨by decide, ?_, ?_, fun _ => by decide, hmailNe⟩
      · split_ifs <;> decide
      · split_ifs <;> decide
    · simp only [analyzeDKIMRecord, if_neg hcond]
      simp [hpub, hkey]
      have hX : (((1 + if strContains record "k=rsa" = true then (1:ℚ)
            else if strContains record "k=ed25519" = true then 3 / 2 else 0) +
            if strContains record "h=sha256" = true then 1
            else if strContains record "h=sha1" = true then 2⁻¹ else 0) +
            if strContains record "s=email" = true then 2⁻¹ else 0) +
            (dkimMailauthSeg res).2 ≤ 9/2 := by
        rcases dkimMailauthSeg_bonus res with hm | hm <;> rw [hm] <;>
          split_ifs <;> norm_num
      refine le_trans (round1_mono (sup_le (le_trans inf_le_left hX) (by norm_num))) ?_
      rw [round1_of_isHalfNat ⟨9, by norm_num⟩]
  · by_cases hpub : strContains record "p=" = true ∧ strContains record "p=;" = false
    · simp only [analyzeDKIMRecord, if_neg hcond]
      simp [hpub]
    · simp only [analyzeDKIMRecord, if_neg hcond]
      simp [hpub]
      refine ⟨by decide, ?_, ?_, fun _ => by decide, ?_, hmailNe⟩
      · split_ifs <;> decide
      · split_ifs <;> decide
      · split
        · split_ifs <;> decide
        · decide

/-- Witness for C6 (amended): the record `v=DKIM1; k=rsa; h=sha256` is
DKIM-shaped, lacks `p=`, gets the warning, earns no public-key points, and
stays within the 4.5 bound. -/
theorem C6_dkim_public_key_witness :
    (strContains "v=DKIM1; k=rsa; h=sha256" "v=DKIM1" = true) ∧
    (strContains "v=DKIM1; k=rsa; h=sha256" "p=" = false) ∧
    dkimNoKeyW ∈ (analyzeDKIMRecord "v=DKIM1; k=rsa; h=sha256" none).warnings ∧
    dkimPubD ∉ ((analyzeDKIMRecord "v=DKIM1; k=rsa; h=sha256" none).score.details.getD []) ∧
    (analyzeDKIMRecord "v=DKIM1; k=rsa; h=sha256" none).score.value ≤ 9/2 ∧
    (dkimPubD ∈ ((analyzeDKIMRecord "v=DKIM1; k=rsa; h=sha256" none).score.details.getD []) ↔
      (strContains "v=DKIM1; k=rsa; h=sha256" "p=" = true ∧
       strContains "v=DKIM1; k=rsa; h=sha256" "p=;" = false)) := by
  have hp : strContains "v=DKIM1; k=rsa; h=sha256" "p=" = false := by decide
  have h := C6_dkim_public_key "v=DKIM1; k=rsa; h=sha256" none (.inl (by decide))
  exact ⟨by decide, hp, (h.1 hp).1, (h.1 hp).2.1, (h.1 hp).2.2, h.2⟩

/-- Witness for C9: eleven concrete calls from one address inside one
minute, then a twelfth after the window. -/
theorem C9_rate_limit_window_witness :
    (checkRateLimitSeq (fun _ => none) "203.0.113.7"
        (0 :: ([1, 2, 3, 4, 5, 6, 7, 8, 9] ++ [10]))).1.map (fun x => x.allowed) =
      List.replicate 10 true ++ [false] ∧
    (checkRateLimitSeq (fun _ => none) "203.0.113.7"
        (0 :: ([1, 2, 3, 4, 5, 6, 7, 8, 9] ++ [10]))).1.getLast? =
      some { allowed := false,
             error := some "Too many requests. Please try again later.",
             resetTime := some (0 + 60000) } ∧
    (checkRateLimit (checkRateLimitSeq (fun _ => none) "203.0.113.7"
        (0 :: ([1, 2, 3, 4, 5, 6, 7, 8, 9] ++ [10]))).2 "203.0.113.7" 60001).1.allowed
      = true ∧
    (checkRateLimit (checkRateLimitSeq (fun _ => none) "203.0.113.7"
        (0 :: ([1, 2, 3, 4, 5, 6, 7, 8, 9] ++ [10]))).2 "203.0.113.7" 60001).2
        "203.0.113.7" = some ⟨1, 60001 + 60000⟩ :=
  C9_rate_limit_window (fun _ => none) "203.0.113.7" 0 [1, 2, 3, 4, 5, 6, 7, 8, 9]
    10 60001 rfl rfl (by decide) (by decide) (by decide)

theorem spfLoop_warnings (ms : List String) : ∀ (a : SpfAnalysis),
    ∀ w ∈ (ms.foldl spfLoopStep a).warnings, w ∈ a.warnings ∨ w = spfPtrW := by
  induction ms with
  | nil =>
    intro a w hw
    exact .inl hw
  | cons m ms ih =>
    intro a w hw
    rcases ih (spfLoopStep a m) w hw with h | h
    · simp only [spfLoopStep, List.mem_append] at h
      rcases h with h | h
      · exact .inl h
      · right
        revert h
        split <;> simp
    · exact .inr h

theorem spfLoop_recs (ms : List String) : ∀ (a : SpfAnalysis),
    ∀ r ∈ (ms.foldl spfLoopStep a).recommendations, r ∈ a.recommendations ∨
      r = spfPtrR ∨ r = spfBareMxR ∨ r = spfBareAR ∨ ∃ d, r = spfRedirectR d := by
  induction ms with
  | nil =>
    intro a r hr
    exact .inl hr
  | cons m ms ih =>
    intro a r hr
    rcases ih (spfLoopStep a m) r hr with h | h
    · simp only [spfLoopStep, List.mem_append] at h
      rcases h with (((h | h) | h) | h) | h
      · exact .inl h
      · right
        right
        right
        right
        revert h
        split
        · unfold spfRedirectSeg
          split
          · split
            · intro h
              simp at h
              exact ⟨_, h⟩
            · simp
          · simp
        · simp
      · right
        left
        revert h
        split <;> simp
      · right
        right
        left
        revert h
        split <;> simp
      · right
        right
        right
        left
        revert h
        split <;> simp
    · exact .inr h

theorem spfPolicyMsgs_warnings (p : Option String) :
    ∀ w ∈ (spfPolicyMsgs p).1, w = spfNoAllW ∨ w = spfPlusAllW ∨ w = spfQAllW := by
  intro w hw
  rcases p with _ | pm
  · simp [spfPolicyMsgs] at hw
    exact .inl hw
  · simp only [spfPolicyMsgs] at hw
    revert hw
    split_ifs <;> simp <;> tauto

theorem spfPolicyMsgs_recs (p : Option String) :
    ∀ r ∈ (spfPolicyMsgs p).2, r = spfNoAllR ∨ r = spfPlusAllR ∨ r = spfQAllR ∨
      r = spfTildeAllR ∨ r = spfDashAllR := by
  intro r hr
  rcases p with _ | pm
  · simp [spfPolicyMsgs] at hr
    exact .inl hr
  · simp only [spfPolicyMsgs] at hr
    revert hr
    split_ifs <;> simp <;> tauto

theorem spfPre_warnings (record : String) :
    ∀ w ∈ (spfPre record).warnings, w = spfNoAllW ∨ w = spfPlusAllW ∨ w = spfQAllW ∨
      w = spfPtrW := by
  intro w hw
  unfold spfPre at hw
  rcases spfLoop_warnings _ _ w hw with h | h
  · rcases spfPolicyMsgs_warnings _ w h with h | h | h <;> tauto
  · tauto

theorem spfPre_recs (record : String) :
    ∀ r ∈ (spfPre record).recommendations, r = spfNoAllR ∨ r = spfPlusAllR ∨
      r = spfQAllR ∨ r = spfTildeAllR ∨ r = spfDashAllR ∨ r = spfPtrR ∨
      r = spfBareMxR ∨ r = spfBareAR ∨ ∃ d, r = spfRedirectR d := by
  intro r hr
  unfold spfPre at hr
  rcases spfLoop_recs _ _ r hr with h | h
  · rcases spfPolicyMsgs_recs _ r h with h | h | h | h | h <;> tauto
  · tauto

theorem not_mem_iteSingle {w x : String} {c : Prop} [Decidable c] (h : w ≠ x) :
    w ∉ (if c then [x] else []) := by
  split <;> simp [h]

theorem approach_ne_fatal (n m : Nat) : spfApproachW n ≠ spfFatalW m := by
  simp only [spfApproachW, spfFatalW]
  exact strNe_of_get (i := 0) (by decide) (by decide) (by decide)

theorem monitor_ne_approachR (n : Nat) : spfMonitorR n ≠ spfApproachR := by
  simp only [spfMonitorR, spfApproachR]
  exact strNe_of_getLit (i := 1) (by decide) (by decide)

theorem monitor_ne_reduceR (n : Nat) : spfMonitorR n ≠ spfReduceR := by
  simp only [spfMonitorR, spfReduceR]
  exact strNe_of_getLit (i := 0) (by decide) (by decide)

theorem fatalW_ne_lenW (n : Nat) : spfFatalW n ≠ spfLenW := by
  simp only [spfFatalW, spfLenW]
  exact strNe_of_getLit (i := 0) (by decide) (by decide)

theorem fatalW_ne_incW (n : Nat) : spfFatalW n ≠ spfSelfIncW := by
  simp only [spfFatalW, spfSelfIncW]
  exact strNe_of_getLit (i := 0) (by decide) (by decide)

theorem approachW_ne_lenW (n : Nat) : spfApproachW n ≠ spfLenW := by
  simp only [spfApproachW, spfLenW]
  exact strNe_of_getLit (i := 0) (by decide) (by decide)

theorem approachW_ne_incW (n : Nat) : spfApproachW n ≠ spfSelfIncW := by
  simp only [spfApproachW, spfSelfIncW]
  exact strNe_of_getLit (i := 0) (by decide) (by decide)

theorem monitorR_ne_lenR (n : Nat) : spfMonitorR n ≠ spfLenR := by
  simp only [spfMonitorR, spfLenR]
  exact strNe_of_getLit (i := 0) (by decide) (by decide)

theorem monitorR_ne_incR (n : Nat) : spfMonitorR n ≠ spfSelfIncR := by
  simp only [spfMonitorR, spfSelfIncR]
  exact strNe_of_getLit (i := 0) (by decide) (by decide)

theorem fatalW_not_in_preW (record : String) (n : Nat) :
    spfFatalW n ∉ (spfPre record).warnings := by
  intro h
  rcases spfPre_warnings record _ h with h | h | h | h
  · exact absurd h (by
      simp only [spfFatalW, spfNoAllW]
      exact strNe_of_getLit (i := 0) (by decide) (by decide))
  · exact absurd h (by
      simp only [spfFatalW, spfPlusAllW]
      exact strNe_of_getLit (i := 0) (by decide) (by decide))
  · exact absurd h (by
      simp only [spfFatalW, spfQAllW]
      exact strNe_of_getLit (i := 0) (by decide) (by decide))
  · exact absurd h (by
      simp only [spfFatalW, spfPtrW]
      exact strNe_of_getLit (i := 0) (by decide) (by decide))

theorem approachW_not_in_preW (record : String) (n : Nat) :
    spfApproachW n ∉ (spfPre record).warnings := by
  intro h
  rcases spfPre_warnings record _ h with h | h | h | h
  · exact absurd h (by
      simp only [spfApproachW, spfNoAllW]
      exact strNe_of_getLit (i := 0) (by decide) (by decide))
  · exact absurd h (by
      simp only [spfApproachW, spfPlusAllW]
      exact strNe_of_getLit (i := 0) (by decide) (by decide))
  · exact absurd h (by
      simp only [spfApproachW, spfQAllW]
      exact strNe_of_getLit (i := 0) (by decide) (by decide))
  · exact absurd h (by
      simp only [spfApproachW, spfPtrW]
      exact strNe_of_getLit (i := 0) (by decide) (by decide))

theorem monitorR_not_in_preR (record : String) (n : Nat) :
    spfMonitorR n ∉ (spfPre record).recommendations := by
  intro h
  rcases spfPre_recs record _ h with h | h | h | h | h | h | h | h | ⟨d, h⟩
  · exact absurd h (by
      simp only [spfMonitorR, spfNoAllR]
      exact strNe_of_getLit (i := 0) (by decide) (by decide))
  · exact absurd h (by
      simp only [spfMonitorR, spfPlusAllR]
      exact strNe_of_getLit (i := 0) (by decide) (by decide))
  · exact absurd h (by
      simp only [spfMonitorR, spfQAllR]
      exact strNe_of_getLit (i := 1) (by decide) (by decide))
  · exact absurd h (by
      simp only [spfMonitorR, spfTildeAllR]
      exact strNe_of_getLit (i := 0) (by decide) (by decide))
  · exact absurd h (by
      simp only [spfMonitorR, spfDashAllR]
      exact strNe_of_getLit (i := 0) (by decide) (by decide))
  · exact absurd h (by
      simp only [spfMonitorR, spfPtrR]
      exact strNe_of_getLit (i := 0) (by decide) (by decide))
  · exact absurd h (by
      simp only [spfMonitorR, spfBareMxR]
      exact strNe_of_getLit (i := 0) (by decide) (by decide))
  · exact absurd h (by
      simp only [spfMonitorR, spfBareAR]
      exact strNe_of_getLit (i := 0) (by decide) (by decide))
  · exact absurd h (by
      simp only [spfMonitorR, spfRedirectR]
      exact strNe_of_get (i := 0) (by decide) (by decide) (by decide))

theorem reduceR_not_in_preR (record : String) :
    spfReduceR ∉ (spfPre record).recommendations := by
  intro h
  rcases spfPre_recs record _ h with h | h | h | h | h | h | h | h | ⟨d, h⟩
  · exact absurd h (by decide)
  · exact absurd h (by decide)
  · exact absurd h (by decide)
  · exact absurd h (by decide)
  · exact absurd h (by decide)
  · exact absurd h (by decide)
  · exact absurd h (by decide)
  · exact absurd h (by decide)
  · exact absurd h (by
      simp only [spfReduceR, spfRedirectR]
      exact strNeLit_of_get (i := 3) (by decide) (by decide))

theorem strExt {s t : String} (h : s.data = t.data) : s = t := by
  cases s
  cases t
  exact congrArg String.mk h

theorem strAppend_assoc (a b c : String) : a ++ b ++ c = a ++ (b ++ c) :=
  strExt (by
    show (a.data ++ b.data) ++ c.data = a.data ++ (b.data ++ c.data)
    exact List.append_assoc a.data b.data c.data)

theorem analyzeSpfRecord_lookups (record domain : String) :
    (analyzeSpfRecord record domain).lookups = (spfPre record).lookups := by
  simp only [analyzeSpfRecord]
  split_ifs <;> rfl

theorem analyzeSpfRecord_fatal (record domain : String)
    (h : 10 < (spfPre record).lookups) :
    (analyzeSpfRecord record domain).warnings =
      spfFatalW (spfPre record).lookups :: ((spfPre record).warnings ++
        (if record.length > 255 then [spfLenW] else []) ++
        (if (spfIncludes record).contains domain then [spfSelfIncW] else [])) ∧
    (analyzeSpfRecord record domain).recommendations =
      spfReduceR :: ((spfPre record).recommendations ++
        (if record.length > 255 then [spfLenR] else []) ++
        (if (spfIncludes record).contains domain then [spfSelfIncR] else [])) := by
  simp only [analyzeSpfRecord]
  rw [if_pos h]
  exact ⟨rfl, rfl⟩

theorem analyzeSpfRecord_approach (record domain : String)
    (h1 : ¬(10 < (spfPre record).lookups)) (h2 : 8 < (spfPre record).lookups) :
    (analyzeSpfRecord record domain).warnings =
      (spfPre record).warnings ++ [spfApproachW (spfPre record).lookups] ++
        (if record.length > 255 then [spfLenW] else []) ++
        (if (spfIncludes record).contains domain then [spfSelfIncW] else []) ∧
    (analyzeSpfRecord record domain).recommendations =
      (spfPre record).recommendations ++ [spfApproachR] ++
        (if record.length > 255 then [spfLenR] else []) ++
        (if (spfIncludes record).contains domain then [spfSelfIncR] else []) := by
  simp only [analyzeSpfRecord]
  rw [if_neg h1, if_pos h2]
  exact ⟨rfl, rfl⟩

theorem analyzeSpfRecord_monitor (record domain : String)
    (h1 : ¬(10 < (spfPre record).lookups)) (h2 : ¬(8 < (spfPre record).lookups))
    (h3 : 5 < (spfPre record).lookups) :
    (analyzeSpfRecord record domain).warnings =
      (spfPre record).warnings ++
        (if record.length > 255 then [spfLenW] else []) ++
        (if (spfIncludes record).contains domain then [spfSelfIncW] else []) ∧
    (analyzeSpfRecord record domain).recommendations =
      (spfPre record).recommendations ++ [spfMonitorR (spfPre record).lookups] ++
        (if record.length > 255 then [spfLenR] else []) ++
        (if (spfIncludes record).contains domain then [spfSelfIncR] else []) := by
  simp only [analyzeSpfRecord]
  rw [if_neg h1, if_neg h2, if_pos h3]
  exact ⟨rfl, rfl⟩

theorem analyzeSpfRecord_low (record domain : String)
    (h1 : ¬(10 < (spfPre record).lookups)) (h2 : ¬(8 < (spfPre record).lookups))
    (h3 : ¬(5 < (spfPre record).lookups)) :
    (analyzeSpfRecord record domain).warnings =
      (spfPre record).warnings ++
        (if record.length > 255 then [spfLenW] else []) ++
        (if (spfIncludes record).contains domain then [spfSelfIncW] else []) ∧
    (analyzeSpfRecord record domain).recommendations =
      (spfPre record).recommendations ++
        (if record.length > 255 then [spfLenR] else []) ++
        (if (spfIncludes record).contains domain then [spfSelfIncR] else []) := by
  simp only [analyzeSpfRecord]
  rw [if_neg h1, if_neg h2, if_neg h3]
  exact ⟨rfl, rfl⟩

/-- Claim C4: the lookup-budget rules are mutually exclusive and evaluated
high-to-low: over 10 lookups the fatal warning is prepended (the first
warning starts with "Fatal:" and the first recommendation with "Reduce DNS
lookups") and neither other rule fires; in (8,10] only the
approaching-limit warning fires; in (5,8] only the monitoring
recommendation fires; at 5 or below none fires. -/
theorem C4_lookup_budget (record domain : String) :
    (10 < (analyzeSpfRecord record domain).lookups →
      (analyzeSpfRecord record domain).warnings.head? =
        some (spfFatalW (analyzeSpfRecord record domain).lookups) ∧
      (∃ t, spfFatalW (analyzeSpfRecord record domain).lookups = "Fatal:" ++ t) ∧
      (analyzeSpfRecord record domain).recommendations.head? = some spfReduceR ∧
      (∃ t, spfReduceR = "Reduce DNS lookups" ++ t) ∧
      spfApproachW (analyzeSpfRecord record domain).lookups ∉
        (analyzeSpfRecord record domain).warnings ∧
      spfMonitorR (analyzeSpfRecord record domain).lookups ∉
        (analyzeSpfRecord record domain).recommendations) ∧
    (8 < (analyzeSpfRecord record domain).lookups ∧
        (analyzeSpfRecord record domain).lookups ≤ 10 →
      spfApproachW (analyzeSpfRecord record domain).lookups ∈
        (analyzeSpfRecord record domain).warnings ∧
      spfFatalW (analyzeSpfRecord record domain).lookups ∉
        (analyzeSpfRecord record domain).warnings ∧
      spfReduceR ∉ (analyzeSpfRecord record domain).recommendations ∧
      spfMonitorR (analyzeSpfRecord record domain).lookups ∉
        (analyzeSpfRecord record domain).recommendations) ∧
    (5 < (analyzeSpfRecord record domain).lookups ∧
        (analyzeSpfRecord record domain).lookups ≤ 8 →
      spfMonitorR (analyzeSpfRecord record domain).lookups ∈
        (analyzeSpfRecord record domain).recommendations ∧
      spfFatalW (analyzeSpfRecord record domain).lookups ∉
        (analyzeSpfRecord record domain).warnings ∧
      spfApproachW (analyzeSpfRecord record domain).lookups ∉
        (analyzeSpfRecord record domain).warnings ∧
      spfReduceR ∉ (analyzeSpfRecord record domain).recommendations) ∧
    ((analyzeSpfRecord record domain).lookups ≤ 5 →
      spfFatalW (analyzeSpfRecord record domain).lookups ∉
        (analyzeSpfRecord record domain).warnings ∧
      spfApproachW (analyzeSpfRecord record domain).lookups ∉
        (analyzeSpfRecord record domain).warnings ∧
      spfMonitorR (analyzeSpfRecord record domain).lookups ∉
        (analyzeSpfRecord record domain).recommendations ∧
      spfReduceR ∉ (analyzeSpfRecord record domain).recommendations) := by
  have hlk := analyzeSpfRecord_lookups record domain
  rw [hlk]
  refine ⟨?_, ?_, ?_, ?_⟩
  · intro h
    obtain ⟨hw, hr⟩ := analyzeSpfRecord_fatal record domain h
    rw [hw, hr]
    refine ⟨rfl, ?_, rfl, ?_, ?_, ?_⟩
    · refine ⟨" Exceeded 10 DNS lookup limit. Found " ++
        (Nat.repr (spfPre record).lookups ++ " lookups (RFC 7208)."), ?_⟩
      rw [← strAppend_assoc]
      rw [show ("Fatal:" ++ " Exceeded 10 DNS lookup limit. Found " : String) =
        "Fatal: Exceeded 10 DNS lookup limit. Found " from by decide]
      rfl
    · exact ⟨" by: 1) Flattening SPF records, 2) Using IP ranges instead of includes, 3) Consolidating mechanisms.",
        by decide⟩
    · intro hm
      rcases List.mem_cons.mp hm with he | hm2
      · exact approach_ne_fatal _ _ he
      · rcases List.mem_append.mp hm2 with h3 | h3
        · rcases List.mem_append.mp h3 with h4 | h4
          · exact approachW_not_in_preW record _ h4
          · exact not_mem_iteSingle (approachW_ne_lenW _) h4
        · exact not_mem_iteSingle (approachW_ne_incW _) h3
    · intro hm
      rcases List.mem_cons.mp hm with he | hm2
      · exact monitor_ne_reduceR _ he
      · rcases List.mem_append.mp hm2 with h3 | h3
        · rcases List.mem_append.mp h3 with h4 | h4
          · exact monitorR_not_in_preR record _ h4
          · exact not_mem_iteSingle (monitorR_ne_lenR _) h4
        · exact not_mem_iteSingle (monitorR_ne_incR _) h3
  · intro h
    obtain ⟨hw, hr⟩ := analyzeSpfRecord_approach record domain (not_lt.mpr h.2) h.1
    rw [hw, hr]
    refine ⟨by simp, ?_, ?_, ?_⟩
    · intro hm
      rcases List.mem_append.mp hm with h3 | h3
      · rcases List.mem_append.mp h3 with h4 | h4
        · rcases List.mem_append.mp h4 with h5 | h5
          · exact fatalW_not_in_preW record _ h5
          · rw [List.mem_singleton] at h5
            exact approach_ne_fatal _ _ h5.symm
        · exact not_mem_iteSingle (fatalW_ne_lenW _) h4
      · exact not_mem_iteSingle (fatalW_ne_incW _) h3
    · intro hm
      rcases List.mem_append.mp hm with h3 | h3
      · rcases List.mem_append.mp h3 with h4 | h4
        · rcases List.mem_append.mp h4 with h5 | h5
          · exact reduceR_not_in_preR record h5
          · rw [List.mem_singleton] at h5
            exact absurd h5 (by decide)
        · exact not_mem_iteSingle (by decide) h4
      · exact not_mem_iteSingle (by decide) h3
    · intro hm
      rcases List.mem_append.mp hm with h3 | h3
      · rcases List.mem_append.mp h3 with h4 | h4
        · rcases List.mem_append.mp h4 with h5 | h5
          · exact monitorR_not_in_preR record _ h5
          · rw [List.mem_singleton] at h5
            exact monitor_ne_approachR _ h5
        · exact not_mem_iteSingle (monitorR_ne_lenR _) h4
      · exact not_mem_iteSingle (monitorR_ne_incR _) h3
  · intro h
    have h10 : ¬(10 < (spfPre record).lookups) := by omega
    have h8 : ¬(8 < (spfPre record).lookups) := by omega
    obtain ⟨hw, hr⟩ := analyzeSpfRecord_monitor record domain h10 h8 h.1
    rw [hw, hr]
    refine ⟨by simp, ?_, ?_, ?_⟩
    · intro hm
      rcases List.mem_append.mp hm with h3 | h3
      · rcases List.mem_append.mp h3 with h4 | h4
        · exact fatalW_not_in_preW record _ h4
        · exact not_mem_iteSingle (fatalW_ne_lenW _) h4
      · exact not_mem_iteSingle (fatalW_ne_incW _) h3
    · intro hm
      rcases List.mem_append.mp hm with h3 | h3
      · rcases List.mem_append.mp h3 with h4 | h4
        · exact approachW_not_in_preW record _ h4
        · exact not_mem_iteSingle (approachW_ne_lenW _) h4
      · exact not_mem_iteSingle (approachW_ne_incW _) h3
    · intro hm
      rcases List.mem_append.mp hm with h3 | h3
      · rcases List.mem_append.mp h3 with h4 | h4
        · rcases List.mem_append.mp h4 with h5 | h5
          · exact reduceR_not_in_preR record h5
          · rw [List.mem_singleton] at h5
            exact (monitor_ne_reduceR _) h5.symm
        · exact not_mem_iteSingle (by decide) h4
      · exact not_mem_iteSingle (by decide) h3
  · intro h
    have h10 : ¬(10 < (spfPre record).lookups) := by omega
    have h8 : ¬(8 < (spfPre record).lookups) := by omega
    have h5 : ¬(5 < (spfPre record).lookups) := by omega
    obtain ⟨hw, hr⟩ := analyzeSpfRecord_low record domain h10 h8 h5
    rw [hw, hr]
    refine ⟨?_, ?_, ?_, ?_⟩
    · intro hm
      rcases List.mem_append.mp hm with h3 | h3
      · rcases List.mem_append.mp h3 with h4 | h4
        · exact fatalW_not_in_preW record _ h4
        · exact not_mem_iteSingle (fatalW_ne_lenW _) h4
      · exact not_mem_iteSingle (fatalW_ne_incW _) h3
    · intro hm
      rcases List.mem_append.mp hm with h3 | h3
      · rcases List.mem_append.mp h3 with h4 | h4
        · exact approachW_not_in_preW record _ h4
        · exact not_mem_iteSingle (approachW_ne_lenW _) h4
      · exact not_mem_iteSingle (approachW_ne_incW _) h3
    · intro hm
      rcases List.mem_append.mp hm with h3 | h3
      · rcases List.mem_append.mp h3 with h4 | h4
        · exact monitorR_not_in_preR record _ h4
        · exact not_mem_iteSingle (monitorR_ne_lenR _) h4
      · exact not_mem_iteSingle (monitorR_ne_incR _) h3
    · intro hm
      rcases List.mem_append.mp hm with h3 | h3
      · rcases List.mem_append.mp h3 with h4 | h4
        · exact reduceR_not_in_preR record h4
        · exact not_mem_iteSingle (by decide) h4
      · exact not_mem_iteSingle (by decide) h3

/-- Witness for C4: an SPF record with eleven lookup-costing mechanisms
exceeds the budget and gets the fatal warning first. -/
theorem C4_lookup_budget_witness :
    10 < (analyzeSpfRecord "v=spf1 a a a a a a a a a a a ~all" "example.com").lookups ∧
    (analyzeSpfRecord "v=spf1 a a a a a a a a a a a ~all" "example.com").warnings.head? =
      some (spfFatalW
        (analyzeSpfRecord "v=spf1 a a a a a a a a a a a ~all" "example.com").lookups) ∧
    (analyzeSpfRecord "v=spf1 a a a a a a a a a a a ~all" "example.com").recommendations.head? =
      some spfReduceR := by
  have h : 10 < (analyzeSpfRecord "v=spf1 a a a a a a a a a a a ~all" "example.com").lookups := by
    decide
  have hc := (C4_lookup_budget "v=spf1 a a a a a a a a a a a ~all" "example.com").1 h
  exact ⟨h, hc.1, hc.2.2.1⟩

end EmailSec
